import Mathlib

/-!
# PalePlatformer core — shallow embedding and verification

This file embeds, in Lean 4, the physics-and-state core of the PalePlatformer
2D platformer (`game.py`, `scripts/tilemap.py`, `scripts/entities.py`) and
proves properties of the per-frame simulation.

Modelling conventions:
* Python floats are modelled as rationals (`ℚ`); all the operations the core
  performs on them (`+`, `-`, `*`, `/ 2`, `min`, `max`, comparisons) are exact
  on the values the game produces, so `ℚ` is a faithful carrier.
* `pygame.Rect` stores integer coordinates; constructing a rect from float
  positions truncates them toward zero (C `int` cast).  `pyInt` models that
  truncation.
* Euclidean distances (`math.sqrt(dx**2 + dy**2)`) are only ever *compared*
  (to constants or to each other), never stored observably, so they are
  modelled by their squares: `sqrt a < sqrt b ↔ a < b` for nonnegative `a, b`.
* Sound, particle and HUD calls have no feedback into the simulation state and
  are omitted; every branch that mutates simulation state is kept.
* The tile map is a Python dict keyed by the canonical string `"x;y"`; the
  encoding is injective on integer grid pairs, so it is modelled as a function
  `Int × Int → Option Tile`.
-/

namespace PalePlatformer

/-- Truncation of a rational toward zero, as the C `int` cast pygame applies to
float rect coordinates (`Int` division of `num` by `den` rounds toward zero). -/
def pyInt (q : ℚ) : Int := q.num.tdiv q.den

/-- `pygame.Rect`: integer position and size. -/
structure Rect where
  x : Int
  y : Int
  w : Int
  h : Int
deriving Repr, DecidableEq

def Rect.right (r : Rect) : Int := r.x + r.w

def Rect.bottom (r : Rect) : Int := r.y + r.h

def Rect.centerx (r : Rect) : Int := r.x + r.w / 2

def Rect.centery (r : Rect) : Int := r.y + r.h / 2

/-- `pygame.Rect.colliderect`: strict overlap on both axes. -/
def Rect.colliderect (a b : Rect) : Bool :=
  a.x < b.x + b.w && a.x + a.w > b.x && a.y < b.y + b.h && a.y + a.h > b.y

/-- A tile record `{type, variant, pos}` of the tile map. -/
structure Tile where
  type : String
  variant : Int
  pos : Int × Int
deriving Repr, DecidableEq

/-- `NEIGHBOR_TILES`: the fixed 5x5 area of offsets centered at (0,0). -/
def NEIGHBOR_TILES : List (Int × Int) :=
  [(-2,-2), (-2,-1), (-2,0), (-2,1), (-2,2),
   (-1,-2), (-1,-1), (-1,0), (-1,1), (-1,2),
   (0,-2), (0,-1), (0,0), (0,1), (0,2),
   (1,-2), (1,-1), (1,0), (1,1), (1,2),
   (2,-2), (2,-1), (2,0), (2,1), (2,2)]

/-- `PHYSICS_TILES`: tile types that interact with physics and collision. -/
def PHYSICS_TILES : List String := ["grass", "stone", "spikes"]

/-- The `Tilemap` class: tile size and the grid-keyed dict of tiles
(offgrid decoration tiles never interact with the core and are omitted). -/
structure Tilemap where
  tile_size : Int
  tilemap : Int × Int → Option Tile

/-- `Tilemap.tiles_nearby`: all tiles present in the 5x5 area around `pos`.
`int(pos // tile_size)` is floor division of the float position. -/
def Tilemap.tiles_nearby (tm : Tilemap) (pos : ℚ × ℚ) : List Tile :=
  let tile_loc : Int × Int :=
    (Int.floor (pos.1 / (tm.tile_size : ℚ)), Int.floor (pos.2 / (tm.tile_size : ℚ)))
  NEIGHBOR_TILES.foldl (fun output_tiles offset =>
    match tm.tilemap (tile_loc.1 + offset.1, tile_loc.2 + offset.2) with
    | some t => output_tiles ++ [t]
    | none => output_tiles) []

/-- `Tilemap.physics_rects_nearby`: world-space rects of nearby solid tiles. -/
def Tilemap.physics_rects_nearby (tm : Tilemap) (pos : ℚ × ℚ) : List Rect :=
  (tm.tiles_nearby pos).foldl (fun output_rects tile =>
    if tile.type ∈ PHYSICS_TILES then
      output_rects ++ [⟨tile.pos.1 * tm.tile_size, tile.pos.2 * tm.tile_size,
                        tm.tile_size, tm.tile_size⟩]
    else output_rects) []

/-- `Tilemap.tile_below`: single-cell lookup one row below `pos`'s cell;
`none` when the cell is absent from the map. -/
def Tilemap.tile_below (tm : Tilemap) (pos : ℚ × ℚ) : Option Tile :=
  let below_tile_loc : Int × Int :=
    (Int.floor (pos.1 / (tm.tile_size : ℚ)), Int.floor (pos.2 / (tm.tile_size : ℚ)))
  tm.tilemap (below_tile_loc.1, below_tile_loc.2 + 1)

/-! ## PhysicsEntity: the shared kinematic integrator -/

/-- Universal physics constants from `entities.py`. -/
def TERMINAL_VELOCITY : ℚ := 5
def GRAVITY_CONST : ℚ := 2/10
def DEPTHS_Y : ℚ := 400
def DEPTHS_X : ℚ := -300

/-- The four per-frame collision flags. -/
structure Collisions where
  up : Bool
  down : Bool
  right : Bool
  left : Bool
deriving Repr, DecidableEq

def Collisions.reset : Collisions := ⟨false, false, false, false⟩

/-- The state of a `PhysicsEntity` touched by the shared integrator step. -/
structure Entity where
  pos : ℚ × ℚ
  size : Int × Int
  velocity : ℚ × ℚ
  gravity : ℚ
  collisions : Collisions
  flip : Bool
  last_movement : ℚ × ℚ
  action : String
deriving Repr, DecidableEq

/-- `entity_rect`: a pygame rect at the entity position (truncated) and size. -/
def Entity.entity_rect (e : Entity) : Rect :=
  ⟨pyInt e.pos.1, pyInt e.pos.2, e.size.1, e.size.2⟩

/-- One pass of the X-axis resolution loop: fold over the nearby solid rects,
carrying the (mutated) entity rect, collision flags and X position. -/
def collideAxisX (frame_mx : ℚ) (rects : List Rect)
    (start : Rect × Collisions × ℚ) : Rect × Collisions × ℚ :=
  rects.foldl (fun st rect =>
    let er := st.1
    let c := st.2.1
    let px := st.2.2
    if er.colliderect rect then
      let erc : Rect × Collisions :=
        if frame_mx > 0 then ({er with x := rect.x - er.w}, {c with right := true})
        else (er, c)
      let erc : Rect × Collisions :=
        if frame_mx < 0 then ({erc.1 with x := rect.x + rect.w}, {erc.2 with left := true})
        else erc
      (erc.1, erc.2, (erc.1.x : ℚ))
    else (er, c, px)) start

/-- One pass of the Y-axis resolution loop. -/
def collideAxisY (frame_my : ℚ) (rects : List Rect)
    (start : Rect × Collisions × ℚ) : Rect × Collisions × ℚ :=
  rects.foldl (fun st rect =>
    let er := st.1
    let c := st.2.1
    let py := st.2.2
    if er.colliderect rect then
      let erc : Rect × Collisions :=
        if frame_my > 0 then ({er with y := rect.y - er.h}, {c with down := true})
        else (er, c)
      let erc : Rect × Collisions :=
        if frame_my < 0 then ({erc.1 with y := rect.y + rect.h}, {erc.2 with up := true})
        else erc
      (erc.1, erc.2, (erc.1.y : ℚ))
    else (er, c, py)) start

/-- `PhysicsEntity.update`: the shared kinematic step — reset collision flags,
apply X displacement and resolve, apply Y displacement and resolve, add
gravity capped at terminal velocity, zero vertical velocity on a vertical
collision, update flip from requested movement, record last movement. -/
def PhysicsEntity.update (tm : Tilemap) (movement : ℚ × ℚ) (e : Entity) : Entity :=
  let frame_movement : ℚ × ℚ := (movement.1 + e.velocity.1, movement.2 + e.velocity.2)
  -- X axis
  let posx : ℚ := e.pos.1 + frame_movement.1
  let startX : Rect × Collisions × ℚ :=
    (⟨pyInt posx, pyInt e.pos.2, e.size.1, e.size.2⟩, Collisions.reset, posx)
  let resX := collideAxisX frame_movement.1 (tm.physics_rects_nearby (posx, e.pos.2)) startX
  let posx' : ℚ := resX.2.2
  -- Y axis
  let posy : ℚ := e.pos.2 + frame_movement.2
  let startY : Rect × Collisions × ℚ :=
    (⟨pyInt posx', pyInt posy, e.size.1, e.size.2⟩, resX.2.1, posy)
  let resY := collideAxisY frame_movement.2 (tm.physics_rects_nearby (posx', posy)) startY
  let posy' : ℚ := resY.2.2
  let collisions := resY.2.1
  -- gravity, capped at terminal velocity; zeroed on vertical collision
  let vy : ℚ := min TERMINAL_VELOCITY (e.velocity.2 + e.gravity)
  let vy : ℚ := if collisions.down || collisions.up then 0 else vy
  -- flip sprite on turn around
  let flip : Bool := if movement.1 > 0 then false else if movement.1 < 0 then true else e.flip
  { e with
    pos := (posx', posy')
    velocity := (e.velocity.1, vy)
    collisions := collisions
    flip := flip
    last_movement := movement }

/-! ## Collectable: interactable entities

State-relevant branches of `Collectable.update`/`Collectable.collect`.
Sound and particle calls have no feedback into simulation state and are
omitted; every assignment to simulation state is kept.  Euclidean distances
are modelled by their squares (`sqrt` is monotone and the code only compares
distances). -/

/-- Collectable constants from `entities.py`. -/
def TICK_RATE : Int := 60
def ALERT_COOLDOWN : Int := 3
def GRUB_NOISE_DIST : Int := 200
def ALERT_NOISE_DIST : Int := 45
def DASH_TICK : Int := 14

/-- `COLLECTABLE_SIZES` dict (spawned kinds only ever look up present keys). -/
def COLLECTABLE_SIZES (c_type : String) : Int × Int :=
  match c_type with
  | "respawn" => (16, 16)
  | "grub" => (30, 30)
  | "cloak_pickup" => (16, 16)
  | "claw_pickup" => (18, 18)
  | "wings_pickup" => (22, 14)
  | "saw" => (30, 30)
  | "gate" => (8, 32)
  | "lever" => (16, 14)
  | "dash_pickup" => (16, 16)
  | "shade_gate" => (16, 32)
  | "slippery_rock" => (8, 32)
  | _ => (0, 0)

/-- The slice of player/game state `Collectable` methods read and write:
the player rect snapshot, position, cloak window, ability flags, the
entity-collision channel, and the respawn anchor. -/
structure PlayerView where
  rect : Rect
  pos_x : ℚ
  pos_y : ℚ
  cloak_timer : Int
  has_cloak : Bool
  has_dash : Bool
  has_claw : Bool
  has_wings : Bool
  entity_x_colliding : Int
  collisions_right : Bool
  collisions_left : Bool
  spawn_pos : ℚ × ℚ
deriving Repr, DecidableEq

/-- State of one `Collectable` entity. -/
structure Collectable where
  type : String
  pos : ℚ × ℚ
  size : Int × Int
  x_collisions : Bool
  collect_timer : Int
  idle_noise_timer : Int
  alert_noise_timer : Int
  shade_noise_timer : Int
  alerted : Bool
  action : String
deriving Repr, DecidableEq

/-- `Collectable.__init__` (the offset pos assignment is overwritten by the
`PhysicsEntity` initializer, which stores the raw spawn pos). -/
def Collectable.init (c_type : String) (pos : ℚ × ℚ) (x_collisions : Bool) : Collectable :=
  { type := "collectables/" ++ c_type
    pos := pos
    size := COLLECTABLE_SIZES c_type
    x_collisions := x_collisions
    collect_timer := 0
    idle_noise_timer := 0
    alert_noise_timer := TICK_RATE * ALERT_COOLDOWN
    shade_noise_timer := 0
    alerted := false
    action := "idle" }

/-- `entity_rect` of a collectable. -/
def Collectable.rect (c : Collectable) : Rect :=
  ⟨pyInt c.pos.1, pyInt c.pos.2, c.size.1, c.size.2⟩

/-- Result of `Collectable.collect`: the updated collectable, the updated
player view, and whether the collectable removed itself from the level's
active entity list (ability pickups). -/
structure CollectResult where
  self : Collectable
  player : PlayerView
  removed : Bool
deriving Repr, DecidableEq

/-- The save/lever animation starts and the shade-gate sfx-timer resets at
the top of `Collectable.collect`. -/
def Collectable.collect_anim (pv : PlayerView) (self : Collectable) : Collectable :=
  -- start save animation
  let self := if self.type == "collectables/grub" then {self with action := "collect"} else self
  -- lever pull animation
  let self := if self.type == "collectables/lever" then {self with action := "collect"} else self
  -- shade gate sound timers
  let self :=
    if self.type == "collectables/shade_gate" ∧ self.shade_noise_timer > 30 ∧
        pv.cloak_timer > 0 ∧ pv.cloak_timer < DASH_TICK then
      {self with shade_noise_timer := 0} else self
  if self.type == "collectables/shade_gate" ∧ self.shade_noise_timer > 180 ∧
      pv.has_cloak = false then
    {self with shade_noise_timer := 0} else self

/-- The tail of `Collectable.collect`: the ability-pickup branch removes the
item after setting the matching flag; other interactables start the collect
timer on the first frame of contact. -/
def Collectable.collect_finish (pv : PlayerView) (self : Collectable) : CollectResult :=
  if self.type.endsWith "pickup" then
    let pv := if self.type == "collectables/dash_pickup" then {pv with has_dash := true} else pv
    let pv := if self.type == "collectables/claw_pickup" then {pv with has_claw := true} else pv
    let pv := if self.type == "collectables/wings_pickup" then {pv with has_wings := true} else pv
    let pv := if self.type == "collectables/cloak_pickup" then {pv with has_cloak := true} else pv
    ⟨self, pv, true⟩
  else
    -- start collect timer only on the first frame of contact with player
    let self := if self.collect_timer < 1 then {self with collect_timer := 1} else self
    ⟨self, pv, false⟩

/-- `Collectable.collect`, called every frame the player rect overlaps the
collectable's rect. -/
def Collectable.collect (self : Collectable) (pv : PlayerView) : CollectResult :=
  let rect := self.rect
  let player_rect := pv.rect
  -- set spawn point on checkpoint
  let pv := if self.type == "collectables/respawn" then {pv with spawn_pos := self.pos} else pv
  -- start animations and reset shade-gate sfx timers
  let self := self.collect_anim pv
  -- collide with player (solid interactables)
  let pv :=
    if self.x_collisions then
      if player_rect.centerx < rect.centerx then
        let pr := {player_rect with x := rect.x - player_rect.w}
        {pv with collisions_right := true, entity_x_colliding := 0, pos_x := (pr.x : ℚ)}
      else
        let pr := {player_rect with x := rect.x + rect.w}
        {pv with collisions_left := true, entity_x_colliding := 1, pos_x := (pr.x : ℚ)}
    else pv
  -- ability pickup items: set the flag, remove self, return before the timer
  self.collect_finish pv

/-- The lever's nearest-gate search (`gate_list[0]` raises `IndexError` when
no gate entities are in the active list; comparing `sqrt` distances is
modelled by comparing their squares). -/
def leverFindGate (rect : Rect) (collectables : List Collectable) : Except String Collectable :=
  let gate_list := collectables.filter (fun entity => entity.type == "collectables/gate")
  match gate_list with
  | [] => Except.error "IndexError: list index out of range"
  | closest0 :: _ =>
    Except.ok (gate_list.foldl (fun closest_gate gate =>
      let x_dist := rect.centerx - gate.rect.centerx
      let y_dist := rect.centery - gate.rect.centery
      let dist_sq := x_dist ^ 2 + y_dist ^ 2
      let closest_x_dist := rect.centerx - closest_gate.rect.centerx
      let closest_y_dist := rect.centery - closest_gate.rect.centery
      let closest_dist_sq := closest_x_dist ^ 2 + closest_y_dist ^ 2
      if dist_sq < closest_dist_sq then gate else closest_gate) closest0)

/-- Result of one `Collectable.update` call. `gate_open` is `none` except on
the lever's gate-open checkpoint tick, where it carries the nearest-gate
search result (`Except.error` models the uncaught `IndexError`). -/
structure CollectableUpdateResult where
  self : Collectable
  player : PlayerView
  damage_fade_out : Bool
  grubs_collected : Int
  removed : Bool
  gate_open : Option (Except String Collectable)
deriving Repr

/-- The noise-timer ticks and the gated collect-counter increment at the
top of `Collectable.update`. -/
def Collectable.tick_timers (self : Collectable) : Collectable :=
  let self := {self with
    idle_noise_timer := self.idle_noise_timer + 1
    alert_noise_timer := self.alert_noise_timer + 1
    shade_noise_timer := self.shade_noise_timer + 1}
  -- increment collect counter only if collect() has been called
  if self.collect_timer > 0 then {self with collect_timer := self.collect_timer + 1} else self

/-- Collect when in contact: call `collect()` on rect overlap. -/
def Collectable.contact (pv : PlayerView) (self : Collectable) : CollectResult :=
  if self.rect.colliderect pv.rect then self.collect pv else ⟨self, pv, false⟩

/-- The saw's circular (distance-based) damage check. -/
def sawCheck (dist_sq : Int) (damage_fade_out : Bool) (self : Collectable) : Bool :=
  if self.type == "collectables/saw" ∧ dist_sq < ((COLLECTABLE_SIZES "saw").1 - 10) ^ 2 then
    true
  else damage_fade_out

/-- Reset the alerted status at distance. -/
def alertedReset (dist_sq : Int) (self : Collectable) : Collectable :=
  if dist_sq ≥ ALERT_NOISE_DIST ^ 2 then {self with alerted := false} else self

/-- Shade gate: drop the collision while the player is cloak dashing. -/
def shadeGateCollision (pv : PlayerView) (self : Collectable) : Collectable :=
  if self.type == "collectables/shade_gate" then
    if pv.cloak_timer > 0 ∧ pv.cloak_timer < DASH_TICK then
      {self with x_collisions := false}
    else
      {self with x_collisions := true}
  else self

/-- Lever: open the nearest gate at the checkpoint tick. -/
def leverPhase (rect : Rect) (collectables : List Collectable) (self : Collectable) :
    Option (Except String Collectable) :=
  if self.type == "collectables/lever" ∧ self.collect_timer == 60 then
    some (leverFindGate rect collectables)
  else none

/-- Grub behavior before collection: sad-idle noises, alert status, and the
alert/idle action. -/
def grubBehavior (dist_sq y_dist : Int) (pv : PlayerView) (grub_rand : Bool)
    (self : Collectable) : Collectable :=
  if self.type == "collectables/grub" ∧ self.collect_timer == 0 then
    -- sad idle noises (random draws gate the sfx-timer reset)
    let self :=
      if dist_sq < GRUB_NOISE_DIST ^ 2 ∧ dist_sq > ALERT_NOISE_DIST ^ 2 ∧
          pv.pos_y < DEPTHS_Y ∧ grub_rand then
        {self with idle_noise_timer := 0} else self
    -- update alert status when player is very close
    let self :=
      if dist_sq < ALERT_NOISE_DIST ^ 2 ∧ (|y_dist| : ℚ) < (ALERT_NOISE_DIST : ℚ) / 100 then
        let self :=
          if self.alert_noise_timer > TICK_RATE * ALERT_COOLDOWN ∧ self.alerted = false then
            {self with alert_noise_timer := 0} else self
        {self with alerted := true}
      else self
    -- set action based on how long ago grub was alerted
    if self.alert_noise_timer < TICK_RATE * ALERT_COOLDOWN ∨ self.alerted then
      {self with action := "alert"}
    else
      {self with action := "idle"}
  else self

/-- Grub after collection: the glass-break checkpoint (`collect_timer == 2`)
increments the global collected counter, exactly once. -/
def grubCollectCheck (grubs_collected : Int) (self : Collectable) : Int :=
  if self.type == "collectables/grub" ∧ self.collect_timer == 2 then grubs_collected + 1
  else grubs_collected

/-- `Collectable.update`: per-frame interactable behavior, composed from the
phases above in source order.  `grub_rand` is an oracle for the random draws
gating the grub's sad-idle sound (which resets an sfx timer); it has no
effect on any other state. -/
def Collectable.update (collectables : List Collectable) (pv : PlayerView)
    (damage_fade_out : Bool) (grubs_collected : Int) (grub_rand : Bool)
    (self : Collectable) : CollectableUpdateResult :=
  let self := self.tick_timers
  -- update distance to player
  let rect := self.rect
  let player_rect := pv.rect
  let x_dist := rect.centerx - player_rect.centerx
  let y_dist := rect.centery - player_rect.centery
  let dist_sq := x_dist ^ 2 + y_dist ^ 2
  -- collect when in contact
  let cr : CollectResult := self.contact pv
  let self := cr.self
  let pv := cr.player
  let removed := cr.removed
  -- saw has circular appearance, use distance from center for collision
  let damage_fade_out := sawCheck dist_sq damage_fade_out self
  -- update alerted status for grubs
  let self := alertedReset dist_sq self
  -- shade gate: remove collision if player is cloak dashing
  let self := shadeGateCollision pv self
  -- lever: open nearest gate after delay
  let gate_open : Option (Except String Collectable) := leverPhase rect collectables self
  -- grub behavior before collection
  let self := grubBehavior dist_sq y_dist pv grub_rand self
  -- grub after collection: glass break checkpoint increments the counter
  let grubs_collected := grubCollectCheck grubs_collected self
  ⟨self, pv, damage_fade_out, grubs_collected, removed, gate_open⟩

/-! ## Player: state machine on top of the integrator

`Player.update` from `entities.py` is embedded as a composition of phase
functions, each mirroring one contiguous block of the method, in source
order.  Sound, particle and HUD calls are omitted (no feedback into the
simulation state); every assignment to simulation state is kept. -/

/-- Player physics constants from `entities.py`. -/
def MOVEMENT_X_SCALE : ℚ := 9/5
def JUMP_Y_VEL : ℚ := -101/20
def NUM_AIR_JUMPS : Int := 1
def AIR_JUMP_Y_VEL : ℚ := -23/5
def NUM_AIR_DASHES : Int := 1
def VARIABLE_JUMP_SHEAR : ℚ := 12
def AIRTIME_BUFFER : Int := 4
def LOW_GRAV_THRESHOLD : ℚ := 3/5
def LOW_GRAV_DIVISOR : ℚ := 13/10
def DASH_X_SCALE : ℚ := 4
def DASH_COOLDOWN_TICK : Int := 26
def WALL_SLIDE_VEL : ℚ := 27/20
def WALL_JUMP_Y : ℚ := -23/5
def WALL_JUMP_TICK_CUTOFF : ℚ := 8
def WALL_JUMP_TICK_STALL : ℚ := 2
def WALL_JUMP_BUFFER : Int := 10

/-- `math.copysign`. -/
def mathCopysign (x y : ℚ) : ℚ := if y < 0 then -|x| else |x|

/-- The full player state (`Player.__init__` fields that feed the
simulation), together with the game-owned `damage_fade_out` request flag the
update writes.  `wall_jump_timer` and `dash_timer` become floats in Python
(`*= 1.5`, `/= 2`), hence `ℚ`. -/
structure PState where
  pos : ℚ × ℚ
  size : Int × Int
  velocity : ℚ × ℚ
  gravity : ℚ
  collisions : Collisions
  flip : Bool
  last_movement : ℚ × ℚ
  action : String
  intangibility_timer : Int
  entity_x_colliding : Int
  entity_collision : Bool
  can_update : Bool
  can_move : Bool
  death_counter : Int
  has_wings : Bool
  has_claw : Bool
  running_time : Int
  air_time : Int
  falling_time : Int
  wall_jump_timer : ℚ
  sliding_time : Int
  wall_slide : Bool
  wall_slide_timer : Int
  wall_slide_right : Bool
  wall_slide_x_pos : ℚ
  jumps : Int
  air_jumping : Int
  wall_jump_direction : Bool
  has_dash : Bool
  has_cloak : Bool
  dashes : Int
  dash_timer : ℚ
  cloak_timer : Int
  dash_cooldown_timer : Int
  dash_type : String
  idle_timer : Int
  holding_up : Bool
  holding_down : Bool
  looking_up : Bool
  looking_down : Bool
  holding_left : Bool
  holding_right : Bool
  damage_fade_out : Bool
deriving DecidableEq

/-- `Player.__init__` (with the game's start flags; `dash_type` is unset in
Python until the first dash and is never read before then). -/
def Player.init (pos : ℚ × ℚ) (size : Int × Int) : PState :=
  { pos := pos, size := size, velocity := (0, 0), gravity := GRAVITY_CONST,
    collisions := Collisions.reset, flip := false, last_movement := (0, 0), action := "idle",
    intangibility_timer := 0, entity_x_colliding := -1, entity_collision := false,
    can_update := true, can_move := true, death_counter := 0,
    has_wings := false, has_claw := false, running_time := 0, air_time := -10,
    falling_time := 0, wall_jump_timer := 0, sliding_time := 0, wall_slide := false,
    wall_slide_timer := 1, wall_slide_right := false, wall_slide_x_pos := 0,
    jumps := NUM_AIR_JUMPS, air_jumping := 0, wall_jump_direction := false,
    has_dash := false, has_cloak := false, dashes := NUM_AIR_DASHES, dash_timer := 0,
    cloak_timer := 0, dash_cooldown_timer := 0, dash_type := "dash",
    idle_timer := 0, holding_up := false, holding_down := false,
    looking_up := false, looking_down := false, holding_left := false,
    holding_right := false, damage_fade_out := false }

/-- The player's `entity_rect`. -/
def playerRect (s : PState) : Rect := ⟨pyInt s.pos.1, pyInt s.pos.2, s.size.1, s.size.2⟩

/-- Entity projection of the player state, for the `super().update` call. -/
def playerEntity (s : PState) : Entity :=
  ⟨s.pos, s.size, s.velocity, s.gravity, s.collisions, s.flip, s.last_movement, s.action⟩

/-- Write the entity fields back into the player state. -/
def absorbEntity (e : Entity) (s : PState) : PState :=
  {s with pos := e.pos, velocity := e.velocity, gravity := e.gravity,
          collisions := e.collisions, flip := e.flip, last_movement := e.last_movement,
          action := e.action}

/-- Movement shaping: wall-jump override, post-wall-jump stall, dash
override, or the normal run-speed scale. -/
def shapeMovement (s : PState) (movement : ℚ × ℚ) : ℚ × ℚ :=
  if s.wall_jump_timer < WALL_JUMP_TICK_CUTOFF then
    if s.wall_jump_direction = true then (MOVEMENT_X_SCALE, movement.2)
    else (-MOVEMENT_X_SCALE, movement.2)
  else if s.wall_jump_timer < WALL_JUMP_TICK_CUTOFF + WALL_JUMP_TICK_STALL then
    (0, movement.2)
  else if |s.dash_timer| > 0 then
    (mathCopysign 1 s.dash_timer * DASH_X_SCALE, movement.2)
  else
    (movement.1 * MOVEMENT_X_SCALE, movement.2)

/-- Gravity shaping: suspended entirely while dashing (vertical velocity and
movement also zeroed), reduced near the jump apex, else baseline. -/
def dashGravityPhase (s : PState) (movement : ℚ × ℚ) : (ℚ × ℚ) × PState :=
  if |s.dash_timer| > 0 then
    ((movement.1, 0), {s with gravity := 0, velocity := (s.velocity.1, 0)})
  else if s.air_time > AIRTIME_BUFFER ∧ s.velocity.2 > -LOW_GRAV_THRESHOLD ∧
      s.velocity.2 < LOW_GRAV_THRESHOLD then
    (movement, {s with gravity := GRAVITY_CONST / LOW_GRAV_DIVISOR})
  else
    (movement, {s with gravity := GRAVITY_CONST})

/-- The `super().update` call, gated on `can_move`. -/
def physicsPhase (tm : Tilemap) (movement : ℚ × ℚ) (s : PState) : PState :=
  if s.can_move = true then absorbEntity (PhysicsEntity.update tm movement (playerEntity s)) s
  else s

/-- Check for entity collision from left or right (channel written by
`Collectable.collect` on the previous frame). -/
def entityCollisionPhase (s : PState) : PState :=
  let s := {s with entity_collision := false}
  let s := if s.entity_x_colliding == 0 then
      {s with collisions := {s.collisions with left := true}, entity_collision := true} else s
  let s := if s.entity_x_colliding == 1 then
      {s with collisions := {s.collisions with right := true}, entity_collision := true} else s
  {s with entity_x_colliding := -1}

/-- Void out and death warp if the player falls below the given Y value. -/
def depthsPhase (s : PState) : PState :=
  if s.pos.2 > DEPTHS_Y ∧ s.pos.1 > DEPTHS_X then {s with damage_fade_out := true}
  else if s.pos.2 > DEPTHS_Y * 4 then {s with damage_fade_out := true}
  else s

/-- `below_tile` with the `air` default used when the lookup is absent. -/
def Player.below_tile (tm : Tilemap) (s : PState) : Tile :=
  match tm.tile_below (((playerRect s).centerx : ℚ), ((playerRect s).centery : ℚ)) with
  | some t => t
  | none => ⟨"air", 1, (0, 0)⟩

/-- Void out and death warp if the player collides with spike tiles. -/
def spikesPhase (tm : Tilemap) (s : PState) : PState :=
  if (Player.below_tile tm s).type == "spikes" ∧ s.collisions.down = true then
    {s with damage_fade_out := true}
  else s

/-- Update control timers. -/
def timersPhase (s : PState) : PState :=
  let s := {s with air_time := s.air_time + 1, wall_jump_timer := s.wall_jump_timer + 1,
                   dash_cooldown_timer := s.dash_cooldown_timer + 1,
                   wall_slide_timer := s.wall_slide_timer + 1, wall_slide := false}
  let s := if s.air_jumping > 0 then {s with air_jumping := s.air_jumping + 1} else s
  if s.cloak_timer > 0 then {s with cloak_timer := s.cloak_timer + 1} else s

/-- Reset mobility upon touching ground. -/
def groundResetPhase (s : PState) : PState :=
  if s.collisions.down = true then
    {s with jumps := NUM_AIR_JUMPS, dashes := NUM_AIR_DASHES, air_jumping := 0, air_time := 0}
  else s

/-- Reset mobility upon grabbing wall. -/
def wallResetPhase (s : PState) : PState :=
  if s.sliding_time > 0 then
    {s with jumps := NUM_AIR_JUMPS, dashes := NUM_AIR_DASHES, air_jumping := 0}
  else s

/-- Decrement dash timer towards 0 from both sides. -/
def dashDecayPhase (s : PState) : PState :=
  let s := if s.dash_timer > 0 then {s with dash_timer := max 0 (s.dash_timer - 1)} else s
  if s.dash_timer < 0 then {s with dash_timer := min 0 (s.dash_timer + 1)} else s

/-- The animation hierarchy: wall slide, dash, airtime, run, look up/down,
idle — first matching branch wins; skipped entirely when movement is
silenced.  Returns the `idling` flag together with the state. -/
def animPhase (movement : ℚ × ℚ) (s : PState) : Bool × PState :=
  let s := {s with looking_down := false, looking_up := false}
  if s.can_move = false then
    (false, s)
  else if (s.collisions.right = true ∨ s.collisions.left = true) ∧
      s.air_time > AIRTIME_BUFFER ∧ s.velocity.2 > 0 ∧ s.has_claw = true ∧
      s.entity_collision = false ∧ s.dash_cooldown_timer > 1 then
    let s := {s with wall_slide := true, wall_slide_timer := 0,
                     wall_slide_right := s.collisions.right,
                     sliding_time := s.sliding_time + 1}
    let s := if s.sliding_time == 1 then {s with wall_slide_x_pos := s.pos.1} else s
    let s := {s with dash_timer := s.dash_timer / 2,
                     velocity := (s.velocity.1, min s.velocity.2 WALL_SLIDE_VEL),
                     action := "wall_slide"}
    let s := if s.wall_slide_right = true then {s with flip := false} else {s with flip := true}
    (false, s)
  else if |s.dash_timer| > 0 then
    (false, {s with action := s.dash_type})
  else if s.air_time > AIRTIME_BUFFER then
    if s.velocity.2 < 0 then (false, {s with action := "jump"})
    else (false, {s with action := "fall"})
  else if movement.1 ≠ 0 ∧ s.collisions.left = false ∧ s.collisions.right = false then
    (false, {s with action := "run", running_time := s.running_time + 1})
  else if s.holding_up = true then
    (true, {s with looking_up := true, action := "look_up"})
  else if s.holding_down = true then
    (true, {s with looking_down := true, action := "look_down"})
  else
    (true, {s with action := "idle"})

/-- Add delay in camera movement while idling. -/
def idleTimerPhase (idling : Bool) (s : PState) : PState :=
  if idling = true then {s with idle_timer := s.idle_timer + 1} else {s with idle_timer := 0}

/-- Cancel wall slide when player x pos goes behind wall. -/
def slideCancelPhase (s : PState) : PState :=
  if s.sliding_time > 1 then
    if ¬(s.pos.1 = s.wall_slide_x_pos) then
      let s := if s.wall_slide_right = true ∧ s.pos.1 > s.wall_slide_x_pos then
          {s with wall_slide := false, sliding_time := 0, wall_slide_timer := WALL_JUMP_BUFFER}
        else s
      if s.wall_slide_right = false ∧ s.pos.1 < s.wall_slide_x_pos then
        {s with wall_slide := false, sliding_time := 0, wall_slide_timer := WALL_JUMP_BUFFER}
      else s
    else s
  else s

/-- Falling timer for the hard-landing sound. -/
def fallingPhase (s : PState) : PState :=
  let s := if s.velocity.2 > 0 then {s with falling_time := s.falling_time + 1} else s
  if s.velocity.2 < 0 ∨ s.air_time < AIRTIME_BUFFER ∨ s.sliding_time > 0 then
    {s with falling_time := 0} else s

/-- Trailing cleanup: stop lingering slide/run state. -/
def lingeringPhase (s : PState) : PState :=
  let s := if s.wall_slide = false ∧ s.has_claw = true then {s with sliding_time := 0} else s
  if s.air_time > AIRTIME_BUFFER ∨ s.idle_timer > AIRTIME_BUFFER then
    {s with running_time := 0} else s

/-- `Player.update`, movement shaping through the dash-timer decrement, in
source order; returns the shaped movement alongside the state. -/
def playerUpdatePre (tm : Tilemap) (movement : ℚ × ℚ) (s : PState) : (ℚ × ℚ) × PState :=
  let movement := shapeMovement s movement
  let ms := dashGravityPhase s movement
  let s := physicsPhase tm ms.1 ms.2
  let s := entityCollisionPhase s
  let s := depthsPhase s
  let s := spikesPhase tm s
  let s := timersPhase s
  let s := groundResetPhase s
  let s := wallResetPhase s
  let s := dashDecayPhase s
  (ms.1, s)

/-- `Player.update`, the animation hierarchy through the trailing cleanup. -/
def playerUpdatePost (movement : ℚ × ℚ) (s : PState) : PState :=
  let is' := animPhase movement s
  let s := idleTimerPhase is'.1 is'.2
  let s := slideCancelPhase s
  let s := fallingPhase s
  lingeringPhase s

/-- `Player.update(tilemap, movement)`. -/
def Player.update (tm : Tilemap) (movement : ℚ × ℚ) (s : PState) : PState :=
  let ms := playerUpdatePre tm movement s
  playerUpdatePost ms.1 ms.2

/-- `Player.jump`: wall jump, else grounded/air jump; the method's Python
return value (`True` on the taken branches, `False` at the fall-through). -/
def Player.jump (s : PState) : Bool × PState :=
  if s.wall_slide_timer < WALL_JUMP_BUFFER ∧ s.has_claw = true ∧
      s.wall_jump_timer > (WALL_JUMP_BUFFER : ℚ) + 4 then
    let s := if s.wall_slide_right = false then {s with wall_jump_direction := true}
             else {s with wall_jump_direction := false}
    (true, {s with wall_jump_timer := 0, velocity := (s.velocity.1, WALL_JUMP_Y),
                   air_time := AIRTIME_BUFFER + 1})
  else if s.jumps ≠ 0 ∧ s.dash_timer = 0 then
    let s :=
      if s.air_time > AIRTIME_BUFFER * 2 then
        if s.has_wings = true then
          {s with jumps := min 0 (s.jumps - 1),
                  velocity := (s.velocity.1, AIR_JUMP_Y_VEL), air_jumping := 1}
        else s
      else
        {s with velocity := (s.velocity.1, JUMP_Y_VEL)}
    (true, {s with air_time := AIRTIME_BUFFER + 1})
  else (false, s)

/-- `Player.jump_release`: variable jump height on key-up. -/
def Player.jump_release (s : PState) : PState :=
  if s.velocity.2 < 0 then
    let s :=
      if s.wall_jump_timer > WALL_JUMP_TICK_CUTOFF then
        {s with velocity := (s.velocity.1, s.velocity.2 / VARIABLE_JUMP_SHEAR)}
      else
        {s with velocity := (s.velocity.1, s.velocity.2 / (VARIABLE_JUMP_SHEAR / 4))}
    {s with wall_jump_timer := s.wall_jump_timer * (3/2), gravity := GRAVITY_CONST,
            air_jumping := 0}
  else s

/-- `Player.dash`: eligibility guard, then start the dash and cooldown
timers (Python returns `True` on success and falls through with `None`,
which is falsy, otherwise). -/
def Player.dash (s : PState) : Bool × PState :=
  if s.has_dash = true ∧ s.dash_timer = 0 ∧ s.dashes ≠ 0 ∧
      s.wall_jump_timer > WALL_JUMP_TICK_CUTOFF + WALL_JUMP_TICK_STALL ∧
      s.dash_cooldown_timer > DASH_COOLDOWN_TICK then
    let s := {s with dashes := min 0 (s.dashes - 1)}
    let s :=
      if (s.sliding_time > AIRTIME_BUFFER + 2 ∧ s.wall_slide_right = true) ∨
          (s.sliding_time ≤ AIRTIME_BUFFER + 2 ∧ s.flip = true) then
        {s with dash_timer := -(DASH_TICK : ℚ)}
      else
        {s with dash_timer := (DASH_TICK : ℚ)}
    let s := {s with sliding_time := 0, dash_cooldown_timer := -DASH_TICK}
    let s :=
      if s.has_cloak = true then {s with dash_type := "cloak", cloak_timer := 1}
      else {s with dash_type := "dash"}
    (true, s)
  else (false, s)

/-- `Player.hitstun_animation`: silence movement and set the stun pose. -/
def Player.hitstun_animation (s : PState) : PState :=
  {s with action := "hitstun", can_move := false, falling_time := 0}

/-- `COLLECTABLE_OFFSETS` dict (only entries the core reads). -/
def COLLECTABLE_OFFSETS (c_type : String) : Int × Int :=
  match c_type with
  | "respawn" => (0, 1)
  | "grub" => (0, 11)
  | _ => (0, 0)

/-- `Player.death_warp`: teleport to the spawn anchor and reset physics. -/
def Player.death_warp (spawn_pos : ℚ × ℚ) (s : PState) : PState :=
  {s with can_update := true,
          pos := (spawn_pos.1, spawn_pos.2 + ((COLLECTABLE_OFFSETS "respawn").2 : ℚ)),
          velocity := (s.velocity.1, 0),
          dash_timer := 0,
          gravity := GRAVITY_CONST,
          death_counter := s.death_counter + 1,
          action := "kneel"}

/-- The game loop's player-update dispatch (`game.py`): normal input while
the player can move, zero movement while movement is silenced. -/
def gamePlayerFrame (tm : Tilemap) (player_movement : Bool × Bool) (s : PState) : PState :=
  if s.can_update = true ∧ s.can_move = true then
    Player.update tm
      (((if player_movement.2 then 1 else 0) : ℚ) - (if player_movement.1 then 1 else 0), 0) s
  else if s.can_update = true ∧ s.can_move = false then
    Player.update tm (0, 0) s
  else s

/-! ## Generic lemmas about the accumulating loops -/

theorem tiles_nearby_fold (tm : Tilemap) (cell : Int × Int) (offs : List (Int × Int))
    (acc : List Tile) :
    offs.foldl (fun output_tiles offset =>
      match tm.tilemap (cell.1 + offset.1, cell.2 + offset.2) with
      | some t => output_tiles ++ [t]
      | none => output_tiles) acc =
      acc ++ offs.filterMap (fun offset =>
        tm.tilemap (cell.1 + offset.1, cell.2 + offset.2)) := by
  induction offs generalizing acc with
  | nil => simp
  | cons x xs ih =>
    cases h : tm.tilemap (cell.1 + x.1, cell.2 + x.2) <;> simp [List.foldl_cons, h, ih]

theorem foldl_append_filter_if {α β : Type} (p : α → Prop) [DecidablePred p]
    (g : α → β) (l : List α) (acc : List β) :
    l.foldl (fun a x => if p x then a ++ [g x] else a) acc =
      acc ++ l.filterMap (fun x => if p x then some (g x) else none) := by
  induction l generalizing acc with
  | nil => simp
  | cons x xs ih =>
    by_cases h : p x <;> simp [List.foldl_cons, h, ih]

/-- `tiles_nearby` collects, in probe order, the tiles present at the 25
neighbor offsets. -/
theorem tiles_nearby_eq (tm : Tilemap) (pos : ℚ × ℚ) :
    tm.tiles_nearby pos = NEIGHBOR_TILES.filterMap (fun offset =>
      tm.tilemap (Int.floor (pos.1 / (tm.tile_size : ℚ)) + offset.1,
                  Int.floor (pos.2 / (tm.tile_size : ℚ)) + offset.2)) := by
  unfold Tilemap.tiles_nearby
  exact (tiles_nearby_fold tm
    (Int.floor (pos.1 / (tm.tile_size : ℚ)), Int.floor (pos.2 / (tm.tile_size : ℚ)))
    NEIGHBOR_TILES []).trans (List.nil_append _)

/-- The spec's description of the nearby-solids query: convert the pixel
position to its grid cell by flooring, probe the fixed 25-offset
neighborhood, and give the world-space rect `(gridPos * tileSize,
tileSize × tileSize)` of each probed tile whose type is in the solid set;
tiles of any other type contribute nothing. -/
def specNearbyRects (tm : Tilemap) (pos : ℚ × ℚ) : List Rect :=
  NEIGHBOR_TILES.filterMap (fun offset =>
    match tm.tilemap (Int.floor (pos.1 / (tm.tile_size : ℚ)) + offset.1,
                      Int.floor (pos.2 / (tm.tile_size : ℚ)) + offset.2) with
    | some t =>
      if t.type ∈ PHYSICS_TILES then
        some ⟨t.pos.1 * tm.tile_size, t.pos.2 * tm.tile_size, tm.tile_size, tm.tile_size⟩
      else none
    | none => none)

/-- C9: for every pixel position and tile map, the nearby-solids query
converts the position to the cell `(floor(x/tileSize), floor(y/tileSize))`,
probes exactly the fixed 5x5 neighborhood of 25 distinct cells centered on
that cell, and returns exactly one world-space rectangle
(`gridPos * tileSize`, size `tileSize × tileSize`) for each probed tile
whose type is in the designated solid set; tiles of any other type,
including unknown types, contribute no rectangle. -/
theorem C9_nearby_query (tm : Tilemap) (pos : ℚ × ℚ) :
    tm.physics_rects_nearby pos = specNearbyRects tm pos ∧
    NEIGHBOR_TILES.length = 25 ∧
    NEIGHBOR_TILES.Nodup ∧
    ∀ offset : Int × Int, offset ∈ NEIGHBOR_TILES ↔
      (-2 ≤ offset.1 ∧ offset.1 ≤ 2 ∧ -2 ≤ offset.2 ∧ offset.2 ≤ 2) := by
  refine ⟨?_, by decide, by decide, ?_⟩
  · unfold Tilemap.physics_rects_nearby
    rw [tiles_nearby_eq,
        foldl_append_filter_if (fun tile : Tile => tile.type ∈ PHYSICS_TILES)
          (fun tile : Tile => (⟨tile.pos.1 * tm.tile_size, tile.pos.2 * tm.tile_size,
            tm.tile_size, tm.tile_size⟩ : Rect)),
        List.nil_append, List.filterMap_filterMap]
    unfold specNearbyRects
    apply List.filterMap_congr
    intro offset _
    cases tm.tilemap (Int.floor (pos.1 / (tm.tile_size : ℚ)) + offset.1,
                      Int.floor (pos.2 / (tm.tile_size : ℚ)) + offset.2) <;> rfl
  · intro offset
    constructor
    · intro h
      fin_cases h <;> exact ⟨by decide, by decide, by decide, by decide⟩
    · rintro ⟨h1, h2, h3, h4⟩
      obtain ⟨a, b⟩ := offset
      interval_cases a <;> interval_cases b <;> decide

/-! ## The integrator's vertical-velocity rule and the resting scenario -/

/-- After a step, vertical velocity is `0` exactly when a vertical collision
flag was set during the step, and `min(cap, v + gravity)` otherwise. -/
theorem physics_vertical_rule (tm : Tilemap) (movement : ℚ × ℚ) (e : Entity) :
    ((PhysicsEntity.update tm movement e).collisions.down = true ∨
        (PhysicsEntity.update tm movement e).collisions.up = true →
      (PhysicsEntity.update tm movement e).velocity.2 = 0) ∧
    ((PhysicsEntity.update tm movement e).collisions.down = false →
      (PhysicsEntity.update tm movement e).collisions.up = false →
      (PhysicsEntity.update tm movement e).velocity.2 =
        min TERMINAL_VELOCITY (e.velocity.2 + e.gravity)) := by
  unfold PhysicsEntity.update
  constructor
  · rintro (h | h) <;> simp_all
  · intro h1 h2
    simp_all

/-- Iterated integrator steps with a fixed movement vector. -/
def simEntity (tm : Tilemap) (movement : ℚ × ℚ) : Nat → Entity → Entity
  | 0, e => e
  | n + 1, e => simEntity tm movement n (PhysicsEntity.update tm movement e)

/-- The spec scenario's world: one 16x16 solid tile at grid cell (0,0). -/
def scenarioTilemap : Tilemap :=
  ⟨16, fun cell => if cell = (0, 0) then some ⟨"grass", 1, (0, 0)⟩ else none⟩

/-- The spec scenario's entity: box height 14, starting 2px above the tile
top, velocity (0,0), gravity 0.2, terminal velocity 5.0. -/
def scenarioEntity : Entity :=
  ⟨(4, -16), (8, 14), (0, 0), GRAVITY_CONST, Collisions.reset, false, (0, 0), "idle"⟩

/-- The scenario trajectory, tick by tick. -/
def scenarioState : Nat → Entity
  | 0 => scenarioEntity
  | n + 1 => PhysicsEntity.update scenarioTilemap (0, 0) (scenarioState n)

/-- The scenario states, as literals (gravity accumulates 1/5 per tick while
airborne; the box grounds on tick 6 and then alternates between flush
non-contact and 1px re-penetration resolved back to flush). -/
def scenarioLit : Nat → Entity
  | 1 => ⟨(4, -16), (8, 14), (0, 1/5), GRAVITY_CONST, Collisions.reset, false, (0, 0), "idle"⟩
  | 2 => ⟨(4, -79/5), (8, 14), (0, 2/5), GRAVITY_CONST, Collisions.reset, false, (0, 0), "idle"⟩
  | 3 => ⟨(4, -77/5), (8, 14), (0, 3/5), GRAVITY_CONST, Collisions.reset, false, (0, 0), "idle"⟩
  | 4 => ⟨(4, -74/5), (8, 14), (0, 4/5), GRAVITY_CONST, Collisions.reset, false, (0, 0), "idle"⟩
  | 5 => ⟨(4, -14), (8, 14), (0, 1), GRAVITY_CONST, Collisions.reset, false, (0, 0), "idle"⟩
  | 6 => ⟨(4, -14), (8, 14), (0, 0), GRAVITY_CONST, ⟨false, true, false, false⟩, false, (0, 0), "idle"⟩
  | 7 => ⟨(4, -14), (8, 14), (0, 1/5), GRAVITY_CONST, Collisions.reset, false, (0, 0), "idle"⟩
  | 8 => ⟨(4, -14), (8, 14), (0, 0), GRAVITY_CONST, ⟨false, true, false, false⟩, false, (0, 0), "idle"⟩
  | _ => scenarioEntity

theorem scenarioStep1 : PhysicsEntity.update scenarioTilemap (0, 0) (scenarioLit 0) = scenarioLit 1 := by with_unfolding_all rfl

theorem scenarioStep2 : PhysicsEntity.update scenarioTilemap (0, 0) (scenarioLit 1) = scenarioLit 2 := by with_unfolding_all rfl

theorem scenarioStep3 : PhysicsEntity.update scenarioTilemap (0, 0) (scenarioLit 2) = scenarioLit 3 := by with_unfolding_all rfl

theorem scenarioStep4 : PhysicsEntity.update scenarioTilemap (0, 0) (scenarioLit 3) = scenarioLit 4 := by with_unfolding_all rfl

theorem scenarioStep5 : PhysicsEntity.update scenarioTilemap (0, 0) (scenarioLit 4) = scenarioLit 5 := by with_unfolding_all rfl

theorem scenarioStep6 : PhysicsEntity.update scenarioTilemap (0, 0) (scenarioLit 5) = scenarioLit 6 := by with_unfolding_all rfl

theorem scenarioStep7 : PhysicsEntity.update scenarioTilemap (0, 0) (scenarioLit 6) = scenarioLit 7 := by with_unfolding_all rfl

theorem scenarioStep8 : PhysicsEntity.update scenarioTilemap (0, 0) (scenarioLit 7) = scenarioLit 8 := by with_unfolding_all rfl

theorem scenarioTraj0 : scenarioState 0 = scenarioLit 0 := rfl

theorem scenarioTraj1 : scenarioState 1 = scenarioLit 1 := by
  show PhysicsEntity.update scenarioTilemap (0, 0) (scenarioState 0) = _
  rw [scenarioTraj0, scenarioStep1]

theorem scenarioTraj2 : scenarioState 2 = scenarioLit 2 := by
  show PhysicsEntity.update scenarioTilemap (0, 0) (scenarioState 1) = _
  rw [scenarioTraj1, scenarioStep2]

theorem scenarioTraj3 : scenarioState 3 = scenarioLit 3 := by
  show PhysicsEntity.update scenarioTilemap (0, 0) (scenarioState 2) = _
  rw [scenarioTraj2, scenarioStep3]

theorem scenarioTraj4 : scenarioState 4 = scenarioLit 4 := by
  show PhysicsEntity.update scenarioTilemap (0, 0) (scenarioState 3) = _
  rw [scenarioTraj3, scenarioStep4]

theorem scenarioTraj5 : scenarioState 5 = scenarioLit 5 := by
  show PhysicsEntity.update scenarioTilemap (0, 0) (scenarioState 4) = _
  rw [scenarioTraj4, scenarioStep5]

theorem scenarioTraj6 : scenarioState 6 = scenarioLit 6 := by
  show PhysicsEntity.update scenarioTilemap (0, 0) (scenarioState 5) = _
  rw [scenarioTraj5, scenarioStep6]

theorem scenarioTraj7 : scenarioState 7 = scenarioLit 7 := by
  show PhysicsEntity.update scenarioTilemap (0, 0) (scenarioState 6) = _
  rw [scenarioTraj6, scenarioStep7]

theorem scenarioTraj8 : scenarioState 8 = scenarioLit 8 := by
  show PhysicsEntity.update scenarioTilemap (0, 0) (scenarioState 7) = _
  rw [scenarioTraj7, scenarioStep8]

/-- C6 counterexample: in the spec's own scenario the entity is grounded
after 6 ticks (`collisions.down = true`, vertical velocity 0), but on the
very next tick the flush box no longer strictly overlaps the tile, so
`collisions.down` is false and the vertical velocity is the gravity
increment 1/5, not 0 — further ticks do not keep `collisions.down` true nor
the vertical velocity pinned at 0. -/
theorem C6_cex :
    (scenarioState 6).collisions.down = true ∧
    (scenarioState 6).velocity.2 = 0 ∧
    (scenarioState 7).collisions.down = false ∧
    (scenarioState 7).velocity.2 = 1/5 := by
  rw [scenarioTraj6, scenarioTraj7]
  refine ⟨rfl, rfl, rfl, rfl⟩

/-- C6 amended: after every integrator step the vertical velocity equals 0
if a vertical collision flag (down or up) was set during that step's Y-axis
resolution, and otherwise equals the minimum of the terminal-velocity cap
and the pre-step vertical velocity plus gravity.  A flush-resting entity is
however not in continuous contact: in the spec scenario it grounds after 6
ticks, on the next tick the flag is false and the velocity is one gravity
increment, and on the tick after that it re-contacts with the flag true and
velocity rezeroed (period-2 oscillation), rather than keeping
`collisions.down` true with velocity pinned at 0 on every subsequent tick. -/
theorem C6_amended (tm : Tilemap) (movement : ℚ × ℚ) (e : Entity) :
    (((PhysicsEntity.update tm movement e).collisions.down = true ∨
        (PhysicsEntity.update tm movement e).collisions.up = true) →
      (PhysicsEntity.update tm movement e).velocity.2 = 0) ∧
    ((PhysicsEntity.update tm movement e).collisions.down = false →
      (PhysicsEntity.update tm movement e).collisions.up = false →
      (PhysicsEntity.update tm movement e).velocity.2 =
        min TERMINAL_VELOCITY (e.velocity.2 + e.gravity)) ∧
    ((scenarioState 6).collisions.down = true ∧
      (scenarioState 6).velocity.2 = 0 ∧
      (scenarioState 7).collisions.down = false ∧
      (scenarioState 7).velocity.2 = GRAVITY_CONST ∧
      (scenarioState 8).collisions.down = true ∧
      (scenarioState 8).velocity.2 = 0) :=
  ⟨(physics_vertical_rule tm movement e).1, (physics_vertical_rule tm movement e).2,
    by rw [scenarioTraj6]; rfl, by rw [scenarioTraj6]; rfl,
    by rw [scenarioTraj7]; rfl, by rw [scenarioTraj7]; with_unfolding_all rfl,
    by rw [scenarioTraj8]; rfl, by rw [scenarioTraj8]; rfl⟩

/-- Witness for C6: the amended rule applied at the grounding tick of the
concrete scenario. -/
theorem C6_witness :
    (PhysicsEntity.update scenarioTilemap (0, 0) (scenarioLit 5)).velocity.2 = 0 :=
  (C6_amended scenarioTilemap (0, 0) (scenarioLit 5)).1
    (Or.inl (by rw [scenarioStep6]; rfl))

/-! ## Per-phase preservation lemmas for `Player.update` -/

theorem dashGravity_of_dash (s : PState) (m : ℚ × ℚ) (h : |s.dash_timer| > 0) :
    dashGravityPhase s m = ((m.1, 0), {s with gravity := 0, velocity := (s.velocity.1, 0)}) := by
  unfold dashGravityPhase
  rw [if_pos h]

theorem dashGravityPhase_pres (s : PState) (m : ℚ × ℚ) :
    (dashGravityPhase s m).2.pos = s.pos ∧
    (dashGravityPhase s m).2.dash_timer = s.dash_timer ∧
    (dashGravityPhase s m).2.can_move = s.can_move ∧
    (dashGravityPhase s m).2.velocity.1 = s.velocity.1 ∧
    (dashGravityPhase s m).2.collisions = s.collisions ∧
    (dashGravityPhase s m).2.jumps = s.jumps ∧
    (dashGravityPhase s m).2.dashes = s.dashes ∧
    (dashGravityPhase s m).2.sliding_time = s.sliding_time ∧
    (dashGravityPhase s m).2.entity_x_colliding = s.entity_x_colliding ∧
    (dashGravityPhase s m).2.action = s.action := by
  unfold dashGravityPhase
  repeat' split
  all_goals exact ⟨rfl, rfl, rfl, rfl, rfl, rfl, rfl, rfl, rfl, rfl⟩

theorem dashGravity_velocity_of_no_dash (s : PState) (m : ℚ × ℚ) (h : s.dash_timer = 0) :
    (dashGravityPhase s m).2.velocity = s.velocity ∧ (dashGravityPhase s m).1 = m := by
  unfold dashGravityPhase
  rw [if_neg (by rw [h]; simp)]
  split <;> exact ⟨rfl, rfl⟩

theorem physicsPhase_pres (tm : Tilemap) (m : ℚ × ℚ) (s : PState) :
    (physicsPhase tm m s).dash_timer = s.dash_timer ∧
    (physicsPhase tm m s).can_move = s.can_move ∧
    (physicsPhase tm m s).jumps = s.jumps ∧
    (physicsPhase tm m s).dashes = s.dashes ∧
    (physicsPhase tm m s).sliding_time = s.sliding_time ∧
    (physicsPhase tm m s).entity_x_colliding = s.entity_x_colliding ∧
    (physicsPhase tm m s).damage_fade_out = s.damage_fade_out ∧
    (physicsPhase tm m s).air_time = s.air_time ∧
    (physicsPhase tm m s).has_claw = s.has_claw := by
  unfold physicsPhase
  split
  all_goals exact ⟨rfl, rfl, rfl, rfl, rfl, rfl, rfl, rfl, rfl⟩

theorem physicsPhase_of_not_can_move (tm : Tilemap) (m : ℚ × ℚ) (s : PState)
    (h : s.can_move = false) : physicsPhase tm m s = s := by
  unfold physicsPhase
  rw [h]
  simp

/-- The integrator keeps a zeroed vertical velocity at zero when gravity and
the vertical movement are suspended (the dash window). -/
theorem physics_vy_zero (tm : Tilemap) (m : ℚ × ℚ) (e : Entity)
    (hv : e.velocity.2 = 0) (hg : e.gravity = 0) (_hm : m.2 = 0) :
    (PhysicsEntity.update tm m e).velocity.2 = 0 := by
  rcases hd : (PhysicsEntity.update tm m e).collisions.down with _ | _
  · rcases hu : (PhysicsEntity.update tm m e).collisions.up with _ | _
    · rw [(physics_vertical_rule tm m e).2 hd hu, hv, hg]
      norm_num [TERMINAL_VELOCITY]
    · exact (physics_vertical_rule tm m e).1 (Or.inr hu)
  · exact (physics_vertical_rule tm m e).1 (Or.inl hd)

theorem physicsPhase_vy_zero (tm : Tilemap) (m : ℚ × ℚ) (s : PState)
    (hv : s.velocity.2 = 0) (hg : s.gravity = 0) (hm : m.2 = 0) :
    (physicsPhase tm m s).velocity.2 = 0 := by
  unfold physicsPhase
  split
  · exact physics_vy_zero tm m (playerEntity s) hv hg hm
  · exact hv

theorem entityCollisionPhase_pres (s : PState) :
    (entityCollisionPhase s).pos = s.pos ∧
    (entityCollisionPhase s).dash_timer = s.dash_timer ∧
    (entityCollisionPhase s).can_move = s.can_move ∧
    (entityCollisionPhase s).velocity = s.velocity ∧
    (entityCollisionPhase s).jumps = s.jumps ∧
    (entityCollisionPhase s).dashes = s.dashes ∧
    (entityCollisionPhase s).sliding_time = s.sliding_time ∧
    (entityCollisionPhase s).collisions.down = s.collisions.down ∧
    (entityCollisionPhase s).damage_fade_out = s.damage_fade_out ∧
    (entityCollisionPhase s).air_time = s.air_time ∧
    (entityCollisionPhase s).action = s.action ∧
    (entityCollisionPhase s).wall_slide = s.wall_slide ∧
    (entityCollisionPhase s).has_claw = s.has_claw ∧
    (entityCollisionPhase s).size = s.size := by
  simp only [entityCollisionPhase]
  repeat' split
  all_goals refine ⟨rfl, rfl, rfl, rfl, rfl, rfl, rfl, rfl, rfl, rfl, rfl, rfl, rfl, rfl⟩

theorem entityCollisionPhase_flag (s : PState)
    (h : s.entity_x_colliding = 0 ∨ s.entity_x_colliding = 1) :
    (entityCollisionPhase s).entity_collision = true := by
  unfold entityCollisionPhase
  rcases h with h | h <;> simp [h]

theorem depthsPhase_pres (s : PState) :
    (depthsPhase s).pos = s.pos ∧
    (depthsPhase s).dash_timer = s.dash_timer ∧
    (depthsPhase s).can_move = s.can_move ∧
    (depthsPhase s).velocity = s.velocity ∧
    (depthsPhase s).jumps = s.jumps ∧
    (depthsPhase s).dashes = s.dashes ∧
    (depthsPhase s).sliding_time = s.sliding_time ∧
    (depthsPhase s).collisions = s.collisions ∧
    (depthsPhase s).entity_collision = s.entity_collision ∧
    (depthsPhase s).air_time = s.air_time ∧
    (depthsPhase s).action = s.action ∧
    (depthsPhase s).wall_slide = s.wall_slide ∧
    (depthsPhase s).has_claw = s.has_claw ∧
    (depthsPhase s).size = s.size := by
  unfold depthsPhase
  repeat' split
  all_goals refine ⟨rfl, rfl, rfl, rfl, rfl, rfl, rfl, rfl, rfl, rfl, rfl, rfl, rfl, rfl⟩

theorem spikesPhase_pres (tm : Tilemap) (s : PState) :
    (spikesPhase tm s).pos = s.pos ∧
    (spikesPhase tm s).dash_timer = s.dash_timer ∧
    (spikesPhase tm s).can_move = s.can_move ∧
    (spikesPhase tm s).velocity = s.velocity ∧
    (spikesPhase tm s).jumps = s.jumps ∧
    (spikesPhase tm s).dashes = s.dashes ∧
    (spikesPhase tm s).sliding_time = s.sliding_time ∧
    (spikesPhase tm s).collisions = s.collisions ∧
    (spikesPhase tm s).entity_collision = s.entity_collision ∧
    (spikesPhase tm s).air_time = s.air_time ∧
    (spikesPhase tm s).action = s.action ∧
    (spikesPhase tm s).wall_slide = s.wall_slide ∧
    (spikesPhase tm s).has_claw = s.has_claw ∧
    (spikesPhase tm s).size = s.size := by
  unfold spikesPhase
  repeat' split
  all_goals refine ⟨rfl, rfl, rfl, rfl, rfl, rfl, rfl, rfl, rfl, rfl, rfl, rfl, rfl, rfl⟩

theorem timersPhase_pres (s : PState) :
    (timersPhase s).pos = s.pos ∧
    (timersPhase s).dash_timer = s.dash_timer ∧
    (timersPhase s).can_move = s.can_move ∧
    (timersPhase s).velocity = s.velocity ∧
    (timersPhase s).jumps = s.jumps ∧
    (timersPhase s).dashes = s.dashes ∧
    (timersPhase s).sliding_time = s.sliding_time ∧
    (timersPhase s).collisions = s.collisions ∧
    (timersPhase s).entity_collision = s.entity_collision ∧
    (timersPhase s).damage_fade_out = s.damage_fade_out ∧
    (timersPhase s).action = s.action ∧
    (timersPhase s).wall_slide = false ∧
    (timersPhase s).has_claw = s.has_claw ∧
    (timersPhase s).size = s.size := by
  simp only [timersPhase]
  repeat' split
  all_goals refine ⟨rfl, rfl, rfl, rfl, rfl, rfl, rfl, rfl, rfl, rfl, rfl, rfl, rfl, rfl⟩

theorem groundResetPhase_pres (s : PState) :
    (groundResetPhase s).pos = s.pos ∧
    (groundResetPhase s).dash_timer = s.dash_timer ∧
    (groundResetPhase s).can_move = s.can_move ∧
    (groundResetPhase s).velocity = s.velocity ∧
    (groundResetPhase s).sliding_time = s.sliding_time ∧
    (groundResetPhase s).collisions = s.collisions ∧
    (groundResetPhase s).entity_collision = s.entity_collision ∧
    (groundResetPhase s).damage_fade_out = s.damage_fade_out ∧
    (groundResetPhase s).action = s.action ∧
    (groundResetPhase s).wall_slide = s.wall_slide ∧
    (groundResetPhase s).has_claw = s.has_claw ∧
    (groundResetPhase s).size = s.size := by
  unfold groundResetPhase
  split
  all_goals refine ⟨rfl, rfl, rfl, rfl, rfl, rfl, rfl, rfl, rfl, rfl, rfl, rfl⟩

theorem groundResetPhase_of_down (s : PState) (h : s.collisions.down = true) :
    (groundResetPhase s).jumps = NUM_AIR_JUMPS ∧ (groundResetPhase s).dashes = NUM_AIR_DASHES := by
  unfold groundResetPhase
  rw [if_pos h]
  exact ⟨rfl, rfl⟩

theorem groundResetPhase_jumps (s : PState) (h : s.jumps = NUM_AIR_JUMPS)
    (h' : s.dashes = NUM_AIR_DASHES) :
    (groundResetPhase s).jumps = NUM_AIR_JUMPS ∧ (groundResetPhase s).dashes = NUM_AIR_DASHES := by
  unfold groundResetPhase
  split
  · exact ⟨rfl, rfl⟩
  · exact ⟨h, h'⟩

theorem wallResetPhase_pres (s : PState) :
    (wallResetPhase s).pos = s.pos ∧
    (wallResetPhase s).dash_timer = s.dash_timer ∧
    (wallResetPhase s).can_move = s.can_move ∧
    (wallResetPhase s).velocity = s.velocity ∧
    (wallResetPhase s).sliding_time = s.sliding_time ∧
    (wallResetPhase s).collisions = s.collisions ∧
    (wallResetPhase s).entity_collision = s.entity_collision ∧
    (wallResetPhase s).damage_fade_out = s.damage_fade_out ∧
    (wallResetPhase s).action = s.action ∧
    (wallResetPhase s).wall_slide = s.wall_slide ∧
    (wallResetPhase s).has_claw = s.has_claw ∧
    (wallResetPhase s).size = s.size := by
  unfold wallResetPhase
  split
  all_goals refine ⟨rfl, rfl, rfl, rfl, rfl, rfl, rfl, rfl, rfl, rfl, rfl, rfl⟩

theorem wallResetPhase_of_sliding (s : PState) (h : s.sliding_time > 0) :
    (wallResetPhase s).jumps = NUM_AIR_JUMPS ∧ (wallResetPhase s).dashes = NUM_AIR_DASHES := by
  unfold wallResetPhase
  rw [if_pos h]
  exact ⟨rfl, rfl⟩

theorem wallResetPhase_jumps (s : PState) (h : s.jumps = NUM_AIR_JUMPS)
    (h' : s.dashes = NUM_AIR_DASHES) :
    (wallResetPhase s).jumps = NUM_AIR_JUMPS ∧ (wallResetPhase s).dashes = NUM_AIR_DASHES := by
  unfold wallResetPhase
  split
  · exact ⟨rfl, rfl⟩
  · exact ⟨h, h'⟩

theorem dashDecayPhase_pres (s : PState) :
    (dashDecayPhase s).pos = s.pos ∧
    (dashDecayPhase s).can_move = s.can_move ∧
    (dashDecayPhase s).velocity = s.velocity ∧
    (dashDecayPhase s).jumps = s.jumps ∧
    (dashDecayPhase s).dashes = s.dashes ∧
    (dashDecayPhase s).sliding_time = s.sliding_time ∧
    (dashDecayPhase s).collisions = s.collisions ∧
    (dashDecayPhase s).entity_collision = s.entity_collision ∧
    (dashDecayPhase s).damage_fade_out = s.damage_fade_out ∧
    (dashDecayPhase s).action = s.action ∧
    (dashDecayPhase s).wall_slide = s.wall_slide ∧
    (dashDecayPhase s).air_time = s.air_time ∧
    (dashDecayPhase s).has_claw = s.has_claw ∧
    (dashDecayPhase s).size = s.size := by
  simp only [dashDecayPhase]
  repeat' split
  all_goals refine ⟨rfl, rfl, rfl, rfl, rfl, rfl, rfl, rfl, rfl, rfl, rfl, rfl, rfl, rfl⟩

/-- The dash-timer decrement on an integer timer: one step toward zero. -/
theorem dashDecayPhase_int (s : PState) (n : ℤ) (h : s.dash_timer = (n : ℚ)) :
    (dashDecayPhase s).dash_timer =
      if 0 < n then (n : ℚ) - 1 else if n < 0 then (n : ℚ) + 1 else (n : ℚ) := by
  simp only [dashDecayPhase]
  split
  · rename_i h1
    split
    · rename_i h2
      exact absurd h2 (not_lt.mpr (le_max_left 0 _))
    · show max 0 (s.dash_timer - 1) = _
      rw [h] at h1
      have hn : 0 < n := by exact_mod_cast h1
      rw [h, if_pos hn, max_eq_right]
      have hge : (0 : ℤ) ≤ n - 1 := by omega
      exact_mod_cast hge
  · rename_i h1
    split
    · rename_i h2
      show min 0 (s.dash_timer + 1) = _
      rw [h] at h2
      have hn : n < 0 := by exact_mod_cast h2
      rw [h, if_neg (by omega), if_pos hn, min_eq_right]
      have hle : n + 1 ≤ (0 : ℤ) := by omega
      exact_mod_cast hle
    · rename_i h2
      rw [h] at h1 h2
      have hn0 : ¬ (0 < n) := fun hh => h1 (by exact_mod_cast hh)
      have hn1 : ¬ (n < 0) := fun hh => h2 (by exact_mod_cast hh)
      rw [h, if_neg hn0, if_neg hn1]

theorem animPhase_dash_timer (m : ℚ × ℚ) (s : PState) (h : ¬(s.velocity.2 > 0)) :
    (animPhase m s).2.dash_timer = s.dash_timer := by
  simp only [animPhase]
  split
  · rfl
  · split
    · rename_i hcond
      exact absurd hcond.2.2.1 h
    · repeat' split
      all_goals rfl

theorem animPhase_pres_of_entity_collision (m : ℚ × ℚ) (s : PState)
    (h : s.entity_collision = true) :
    (animPhase m s).2.wall_slide = s.wall_slide ∧
    (animPhase m s).2.velocity = s.velocity ∧
    (animPhase m s).2.jumps = s.jumps ∧
    (animPhase m s).2.dashes = s.dashes := by
  simp only [animPhase]
  split
  · exact ⟨rfl, rfl, rfl, rfl⟩
  · split
    · rename_i hcond
      rw [h] at hcond
      exact absurd hcond.2.2.2.2.1 (by simp)
    · repeat' split
      all_goals exact ⟨rfl, rfl, rfl, rfl⟩

theorem animPhase_jumps (m : ℚ × ℚ) (s : PState) :
    (animPhase m s).2.jumps = s.jumps ∧ (animPhase m s).2.dashes = s.dashes ∧
    (animPhase m s).2.collisions = s.collisions ∧ (animPhase m s).2.pos = s.pos ∧
    (animPhase m s).2.can_move = s.can_move ∧ (animPhase m s).2.damage_fade_out = s.damage_fade_out ∧
    (animPhase m s).2.size = s.size := by
  simp only [animPhase]
  repeat' split
  all_goals refine ⟨rfl, rfl, rfl, rfl, rfl, rfl, rfl⟩

theorem animPhase_wall_slide_false (m : ℚ × ℚ) (s : PState)
    (hw : s.wall_slide = false) (h : s.entity_collision = true) :
    (animPhase m s).2.wall_slide = false := by
  rw [(animPhase_pres_of_entity_collision m s h).1, hw]

theorem idleTimerPhase_pres (b : Bool) (s : PState) :
    (idleTimerPhase b s).pos = s.pos ∧
    (idleTimerPhase b s).dash_timer = s.dash_timer ∧
    (idleTimerPhase b s).can_move = s.can_move ∧
    (idleTimerPhase b s).velocity = s.velocity ∧
    (idleTimerPhase b s).jumps = s.jumps ∧
    (idleTimerPhase b s).dashes = s.dashes ∧
    (idleTimerPhase b s).collisions = s.collisions ∧
    (idleTimerPhase b s).damage_fade_out = s.damage_fade_out ∧
    (idleTimerPhase b s).action = s.action ∧
    (idleTimerPhase b s).wall_slide = s.wall_slide ∧
    (idleTimerPhase b s).size = s.size := by
  unfold idleTimerPhase
  split
  all_goals refine ⟨rfl, rfl, rfl, rfl, rfl, rfl, rfl, rfl, rfl, rfl, rfl⟩

theorem slideCancelPhase_pres (s : PState) :
    (slideCancelPhase s).pos = s.pos ∧
    (slideCancelPhase s).dash_timer = s.dash_timer ∧
    (slideCancelPhase s).can_move = s.can_move ∧
    (slideCancelPhase s).velocity = s.velocity ∧
    (slideCancelPhase s).jumps = s.jumps ∧
    (slideCancelPhase s).dashes = s.dashes ∧
    (slideCancelPhase s).collisions = s.collisions ∧
    (slideCancelPhase s).damage_fade_out = s.damage_fade_out ∧
    (slideCancelPhase s).action = s.action ∧
    (slideCancelPhase s).size = s.size := by
  simp only [slideCancelPhase]
  repeat' split
  all_goals refine ⟨rfl, rfl, rfl, rfl, rfl, rfl, rfl, rfl, rfl, rfl⟩

theorem slideCancelPhase_wall_slide_false (s : PState) (h : s.wall_slide = false) :
    (slideCancelPhase s).wall_slide = false := by
  simp only [slideCancelPhase]
  repeat' split
  all_goals first
  | rfl
  | exact h

theorem fallingPhase_pres (s : PState) :
    (fallingPhase s).pos = s.pos ∧
    (fallingPhase s).dash_timer = s.dash_timer ∧
    (fallingPhase s).can_move = s.can_move ∧
    (fallingPhase s).velocity = s.velocity ∧
    (fallingPhase s).jumps = s.jumps ∧
    (fallingPhase s).dashes = s.dashes ∧
    (fallingPhase s).collisions = s.collisions ∧
    (fallingPhase s).damage_fade_out = s.damage_fade_out ∧
    (fallingPhase s).action = s.action ∧
    (fallingPhase s).wall_slide = s.wall_slide ∧
    (fallingPhase s).size = s.size := by
  simp only [fallingPhase]
  repeat' split
  all_goals refine ⟨rfl, rfl, rfl, rfl, rfl, rfl, rfl, rfl, rfl, rfl, rfl⟩

theorem lingeringPhase_pres (s : PState) :
    (lingeringPhase s).pos = s.pos ∧
    (lingeringPhase s).dash_timer = s.dash_timer ∧
    (lingeringPhase s).can_move = s.can_move ∧
    (lingeringPhase s).velocity = s.velocity ∧
    (lingeringPhase s).jumps = s.jumps ∧
    (lingeringPhase s).dashes = s.dashes ∧
    (lingeringPhase s).collisions = s.collisions ∧
    (lingeringPhase s).damage_fade_out = s.damage_fade_out ∧
    (lingeringPhase s).action = s.action ∧
    (lingeringPhase s).wall_slide = s.wall_slide ∧
    (lingeringPhase s).size = s.size := by
  simp only [lingeringPhase]
  repeat' split
  all_goals refine ⟨rfl, rfl, rfl, rfl, rfl, rfl, rfl, rfl, rfl, rfl, rfl⟩

/-! ## Composite lemmas across the update's phases -/

/-- The phases between the integrator call and the dash-timer decrement
(entity collision, depths, spikes, timers, ground reset, wall reset), as one
composite; `playerUpdatePre` is definitionally this composite after movement
shaping, gravity shaping and the integrator. -/
def midPhases (tm : Tilemap) (s : PState) : PState :=
  wallResetPhase (groundResetPhase (timersPhase (spikesPhase tm (depthsPhase
    (entityCollisionPhase s)))))

theorem playerUpdatePre_eq (tm : Tilemap) (mov : ℚ × ℚ) (s : PState) :
    playerUpdatePre tm mov s =
      ((dashGravityPhase s (shapeMovement s mov)).1,
        dashDecayPhase (midPhases tm (physicsPhase tm
          (dashGravityPhase s (shapeMovement s mov)).1
          (dashGravityPhase s (shapeMovement s mov)).2))) := rfl

theorem midPhases_pres (tm : Tilemap) (s : PState) :
    (midPhases tm s).dash_timer = s.dash_timer ∧
    (midPhases tm s).velocity = s.velocity ∧
    (midPhases tm s).can_move = s.can_move ∧
    (midPhases tm s).pos = s.pos ∧
    (midPhases tm s).collisions.down = s.collisions.down ∧
    (midPhases tm s).sliding_time = s.sliding_time ∧
    (midPhases tm s).wall_slide = false ∧
    (midPhases tm s).entity_collision = (entityCollisionPhase s).entity_collision ∧
    (midPhases tm s).size = s.size ∧
    (midPhases tm s).action = s.action := by
  obtain ⟨a1, a2, a3, a4, a5, a6, a7, a8, a9, a10, a11, a12, a13, a14⟩ :=
    entityCollisionPhase_pres s
  obtain ⟨b1, b2, b3, b4, b5, b6, b7, b8, b9, b10, b11, b12, b13, b14⟩ :=
    depthsPhase_pres (entityCollisionPhase s)
  obtain ⟨c1, c2, c3, c4, c5, c6, c7, c8, c9, c10, c11, c12, c13, c14⟩ :=
    spikesPhase_pres tm (depthsPhase (entityCollisionPhase s))
  obtain ⟨d1, d2, d3, d4, d5, d6, d7, d8, d9, d10, d11, d12, d13, d14⟩ :=
    timersPhase_pres (spikesPhase tm (depthsPhase (entityCollisionPhase s)))
  obtain ⟨e1, e2, e3, e4, e5, e6, e7, e8, e9, e10, e11, e12⟩ :=
    groundResetPhase_pres (timersPhase (spikesPhase tm (depthsPhase (entityCollisionPhase s))))
  obtain ⟨f1, f2, f3, f4, f5, f6, f7, f8, f9, f10, f11, f12⟩ :=
    wallResetPhase_pres (groundResetPhase (timersPhase (spikesPhase tm (depthsPhase
      (entityCollisionPhase s)))))
  unfold midPhases
  refine ⟨?_, ?_, ?_, ?_, ?_, ?_, ?_, ?_, ?_, ?_⟩
  · rw [f2, e2, d2, c2, b2, a2]
  · rw [f4, e4, d4, c4, b4, a4]
  · rw [f3, e3, d3, c3, b3, a3]
  · rw [f1, e1, d1, c1, b1, a1]
  · rw [f6, e6, congrArg Collisions.down d8, congrArg Collisions.down c8,
        congrArg Collisions.down b8, a8]
  · rw [f5, e5, d7, c7, b7, a7]
  · rw [f10, e10, d12]
  · rw [f7, e7, d9, c9, b9]
  · rw [f12, e12, d14, c14, b14, a14]
  · rw [f9, e9, d11, c11, b11, a11]

theorem midPhases_jumps_of_down (tm : Tilemap) (s : PState) (h : s.collisions.down = true) :
    (midPhases tm s).jumps = NUM_AIR_JUMPS ∧ (midPhases tm s).dashes = NUM_AIR_DASHES := by
  have hdown : (timersPhase (spikesPhase tm (depthsPhase
      (entityCollisionPhase s)))).collisions.down = true := by
    rw [congrArg Collisions.down
        (timersPhase_pres (spikesPhase tm (depthsPhase (entityCollisionPhase s)))).2.2.2.2.2.2.2.1,
      congrArg Collisions.down
        (spikesPhase_pres tm (depthsPhase (entityCollisionPhase s))).2.2.2.2.2.2.2.1,
      congrArg Collisions.down (depthsPhase_pres (entityCollisionPhase s)).2.2.2.2.2.2.2.1,
      (entityCollisionPhase_pres s).2.2.2.2.2.2.2.1, h]
  have hg := groundResetPhase_of_down _ hdown
  exact wallResetPhase_jumps _ hg.1 hg.2

theorem midPhases_jumps_of_sliding (tm : Tilemap) (s : PState) (h : s.sliding_time > 0) :
    (midPhases tm s).jumps = NUM_AIR_JUMPS ∧ (midPhases tm s).dashes = NUM_AIR_DASHES := by
  have hslide : (groundResetPhase (timersPhase (spikesPhase tm (depthsPhase
      (entityCollisionPhase s))))).sliding_time > 0 := by
    rw [(groundResetPhase_pres _).2.2.2.2.1, (timersPhase_pres _).2.2.2.2.2.2.1,
      (spikesPhase_pres tm _).2.2.2.2.2.2.1, (depthsPhase_pres _).2.2.2.2.2.2.1,
      (entityCollisionPhase_pres s).2.2.2.2.2.2.1]
    exact h
  exact wallResetPhase_of_sliding _ hslide

theorem midPhases_entity_collision (tm : Tilemap) (s : PState)
    (h : s.entity_x_colliding = 0 ∨ s.entity_x_colliding = 1) :
    (midPhases tm s).entity_collision = true := by
  rw [(midPhases_pres tm s).2.2.2.2.2.2.2.1]
  exact entityCollisionPhase_flag s h

/-- The post phases preserve the listed fields from the animation phase's
output, and keep a cleared wall-slide flag cleared. -/
theorem playerUpdatePost_pres (m : ℚ × ℚ) (s : PState) :
    (playerUpdatePost m s).jumps = (animPhase m s).2.jumps ∧
    (playerUpdatePost m s).dashes = (animPhase m s).2.dashes ∧
    (playerUpdatePost m s).dash_timer = (animPhase m s).2.dash_timer ∧
    (playerUpdatePost m s).velocity = (animPhase m s).2.velocity ∧
    (playerUpdatePost m s).pos = (animPhase m s).2.pos ∧
    (playerUpdatePost m s).collisions = (animPhase m s).2.collisions ∧
    (playerUpdatePost m s).damage_fade_out = (animPhase m s).2.damage_fade_out ∧
    (playerUpdatePost m s).can_move = (animPhase m s).2.can_move ∧
    (playerUpdatePost m s).action = (animPhase m s).2.action ∧
    (playerUpdatePost m s).size = (animPhase m s).2.size ∧
    ((animPhase m s).2.wall_slide = false → (playerUpdatePost m s).wall_slide = false) := by
  obtain ⟨i1, i2, i3, i4, i5, i6, i7, i8, i9, i10, i11⟩ :=
    idleTimerPhase_pres (animPhase m s).1 (animPhase m s).2
  obtain ⟨s1, s2, s3, s4, s5, s6, s7, s8, s9, s10⟩ :=
    slideCancelPhase_pres (idleTimerPhase (animPhase m s).1 (animPhase m s).2)
  obtain ⟨g1, g2, g3, g4, g5, g6, g7, g8, g9, g10, g11⟩ :=
    fallingPhase_pres (slideCancelPhase (idleTimerPhase (animPhase m s).1 (animPhase m s).2))
  obtain ⟨l1, l2, l3, l4, l5, l6, l7, l8, l9, l10, l11⟩ :=
    lingeringPhase_pres (fallingPhase (slideCancelPhase (idleTimerPhase (animPhase m s).1
      (animPhase m s).2)))
  show _ ∧ _ ∧ _ ∧ _ ∧ _ ∧ _ ∧ _ ∧ _ ∧ _ ∧ _ ∧ _
  unfold playerUpdatePost
  refine ⟨?_, ?_, ?_, ?_, ?_, ?_, ?_, ?_, ?_, ?_, ?_⟩
  · rw [l5, g5, s5, i5]
  · rw [l6, g6, s6, i6]
  · rw [l2, g2, s2, i2]
  · rw [l4, g4, s4, i4]
  · rw [l1, g1, s1, i1]
  · rw [l7, g7, s7, i7]
  · rw [l8, g8, s8, i8]
  · rw [l3, g3, s3, i3]
  · rw [l9, g9, s9, i9]
  · rw [l11, g11, s10, i11]
  · intro hw
    rw [l10, g10]
    exact slideCancelPhase_wall_slide_false _ (by rw [i10]; exact hw)

theorem Player_update_eq (tm : Tilemap) (mov : ℚ × ℚ) (s : PState) :
    Player.update tm mov s =
      playerUpdatePost (playerUpdatePre tm mov s).1 (playerUpdatePre tm mov s).2 := rfl

/-- Through the pre phases, a nonzero integer dash timer is decremented one
step toward zero and the vertical velocity ends the phase chain at zero. -/
theorem playerUpdatePre_of_dash (tm : Tilemap) (mov : ℚ × ℚ) (s : PState) (n : ℤ)
    (h : s.dash_timer = (n : ℚ)) (hn : n ≠ 0) :
    (playerUpdatePre tm mov s).2.dash_timer =
      (if 0 < n then (n : ℚ) - 1 else if n < 0 then (n : ℚ) + 1 else (n : ℚ)) ∧
    (playerUpdatePre tm mov s).2.velocity.2 = 0 := by
  have habs : |s.dash_timer| > 0 := by
    rw [h]
    exact abs_pos.mpr (by exact_mod_cast hn)
  rw [playerUpdatePre_eq, dashGravity_of_dash _ _ habs]
  set s2 : PState := {s with gravity := 0, velocity := (s.velocity.1, 0)} with hs2
  set p : PState := physicsPhase tm ((shapeMovement s mov).1, 0) s2 with hp
  have hpdt : p.dash_timer = (n : ℚ) := by
    rw [hp, (physicsPhase_pres tm _ s2).1, hs2, h]
  have hpv : p.velocity.2 = 0 := physicsPhase_vy_zero tm _ s2 rfl rfl rfl
  have hmdt : (midPhases tm p).dash_timer = (n : ℚ) := by
    rw [(midPhases_pres tm p).1, hpdt]
  have hmv : (midPhases tm p).velocity = p.velocity := (midPhases_pres tm p).2.1
  constructor
  · exact dashDecayPhase_int (midPhases tm p) n hmdt
  · rw [(dashDecayPhase_pres (midPhases tm p)).2.2.1, hmv, hpv]

/-- C3: for every run starting at a frame where `dash_timer` is a nonzero
integer ±N, the per-frame update decays it toward 0 by exactly 1 regardless
of input or tile map (the wall-slide halving cannot fire, because the dash
suspends vertical velocity at 0 for the whole frame), and `dash()` returns
false as long as `dash_timer` has not reached 0 or the cooldown timer has
not exceeded `DASH_COOLDOWN_TICK`. -/
theorem C3_dash_decay_and_lockout :
    (∀ (tm : Tilemap) (movement : ℚ × ℚ) (s : PState) (n : ℤ),
      s.dash_timer = (n : ℚ) → n ≠ 0 →
      (Player.update tm movement s).dash_timer =
        (if 0 < n then (n : ℚ) - 1 else (n : ℚ) + 1)) ∧
    (∀ s : PState, (s.dash_timer ≠ 0 ∨ s.dash_cooldown_timer ≤ DASH_COOLDOWN_TICK) →
      (Player.dash s).1 = false) := by
  constructor
  · intro tm movement s n h hn
    obtain ⟨hdt, hv⟩ := playerUpdatePre_of_dash tm movement s n h hn
    rw [Player_update_eq,
      (playerUpdatePost_pres (playerUpdatePre tm movement s).1
        (playerUpdatePre tm movement s).2).2.2.1,
      animPhase_dash_timer _ _ (by rw [hv]; norm_num), hdt]
    rcases lt_trichotomy n 0 with hlt | heq | hgt
    · rw [if_neg (by omega), if_pos hlt, if_neg (by omega)]
    · exact absurd heq hn
    · rw [if_pos hgt, if_pos hgt]
  · intro s h
    unfold Player.dash
    rw [if_neg]
    rintro ⟨_, hdt, _, _, hcool⟩
    rcases h with h | h
    · exact h hdt
    · exact absurd hcool (not_lt.mpr h)

/-- The empty tile map. -/
def emptyTilemap : Tilemap := ⟨16, fun _ => none⟩

/-- A player state mid-dash (timer 14), used as the C3 witness input. -/
def dashWitnessState : PState := { Player.init (0, 0) (8, 14) with dash_timer := 14 }

/-- Witness for C3 at a concrete mid-dash state: the timer decays 14 → 13
and `dash()` refuses to re-trigger. -/
theorem C3_witness :
    (Player.update emptyTilemap (0, 0) dashWitnessState).dash_timer =
      (if 0 < (14 : ℤ) then ((14 : ℤ) : ℚ) - 1 else ((14 : ℤ) : ℚ) + 1) ∧
    (Player.dash dashWitnessState).1 = false :=
  ⟨C3_dash_decay_and_lockout.1 emptyTilemap (0, 0) dashWitnessState 14
      (by rw [show dashWitnessState.dash_timer = (14 : ℚ) from rfl]; norm_num) (by norm_num),
    C3_dash_decay_and_lockout.2 dashWitnessState
      (Or.inl (by rw [show dashWitnessState.dash_timer = (14 : ℚ) from rfl]; norm_num))⟩

/-- C7 amended: a frame whose resolved collisions report ground contact
(`collisions.down`) resets `jumps` and `dashes` to their maxima that same
frame; wall contact replenishes only through the wall-slide grab state —
on frames entered with `sliding_time > 0` (the slide started on an earlier
frame, which requires the claw) — not on mere wall contact. -/
theorem C7_amended (tm : Tilemap) (movement : ℚ × ℚ) (s : PState) :
    ((Player.update tm movement s).collisions.down = true →
      (Player.update tm movement s).jumps = NUM_AIR_JUMPS ∧
      (Player.update tm movement s).dashes = NUM_AIR_DASHES) ∧
    (s.sliding_time > 0 →
      (Player.update tm movement s).jumps = NUM_AIR_JUMPS ∧
      (Player.update tm movement s).dashes = NUM_AIR_DASHES) := by
  set A : ℚ × ℚ := (playerUpdatePre tm movement s).1 with hA
  set B : PState := (playerUpdatePre tm movement s).2 with hB0
  have hpost := playerUpdatePost_pres A B
  have hanim := animPhase_jumps A B
  have hru : Player.update tm movement s = playerUpdatePost A B := rfl
  set p : PState := physicsPhase tm (dashGravityPhase s (shapeMovement s movement)).1
    (dashGravityPhase s (shapeMovement s movement)).2 with hp
  have hB : B = dashDecayPhase (midPhases tm p) :=
    hB0.trans (congrArg Prod.snd (playerUpdatePre_eq tm movement s))
  constructor
  · intro hdown
    rw [hru, hpost.2.2.2.2.2.1, hanim.2.2.1, hB,
      congrArg Collisions.down (dashDecayPhase_pres (midPhases tm p)).2.2.2.2.2.2.1,
      (midPhases_pres tm p).2.2.2.2.1] at hdown
    obtain ⟨hj, hd⟩ := midPhases_jumps_of_down tm p hdown
    constructor
    · rw [hru, hpost.1, hanim.1, hB, (dashDecayPhase_pres (midPhases tm p)).2.2.2.1, hj]
    · rw [hru, hpost.2.1, hanim.2.1, hB, (dashDecayPhase_pres (midPhases tm p)).2.2.2.2.1, hd]
  · intro hslide
    have hpslide : p.sliding_time > 0 := by
      rw [hp, (physicsPhase_pres tm _ _).2.2.2.2.1,
        (dashGravityPhase_pres s _).2.2.2.2.2.2.2.1]
      exact hslide
    obtain ⟨hj, hd⟩ := midPhases_jumps_of_sliding tm p hpslide
    constructor
    · rw [hru, hpost.1, hanim.1, hB, (dashDecayPhase_pres (midPhases tm p)).2.2.2.1, hj]
    · rw [hru, hpost.2.1, hanim.2.1, hB, (dashDecayPhase_pres (midPhases tm p)).2.2.2.2.1, hd]

/-- C10: on a frame whose horizontal block came from a solid interactable
entity (the entity-collision channel is set), the wall-slide state is never
entered that frame, and the velocity is exactly the pre-animation value —
in particular the fall speed is not clamped to the wall-slide cap. -/
theorem C10_entity_block_no_wall_slide (tm : Tilemap) (movement : ℚ × ℚ) (s : PState)
    (h : s.entity_x_colliding = 0 ∨ s.entity_x_colliding = 1) :
    (Player.update tm movement s).wall_slide = false ∧
    (Player.update tm movement s).velocity =
      (playerUpdatePre tm movement s).2.velocity := by
  set A : ℚ × ℚ := (playerUpdatePre tm movement s).1 with hA
  set B : PState := (playerUpdatePre tm movement s).2 with hB0
  have hpost := playerUpdatePost_pres A B
  have hru : Player.update tm movement s = playerUpdatePost A B := rfl
  set p : PState := physicsPhase tm (dashGravityPhase s (shapeMovement s movement)).1
    (dashGravityPhase s (shapeMovement s movement)).2 with hp
  have hB : B = dashDecayPhase (midPhases tm p) :=
    hB0.trans (congrArg Prod.snd (playerUpdatePre_eq tm movement s))
  have hflag : p.entity_x_colliding = 0 ∨ p.entity_x_colliding = 1 := by
    rw [hp, (physicsPhase_pres tm _ _).2.2.2.2.2.1,
      (dashGravityPhase_pres s _).2.2.2.2.2.2.2.2.1]
    exact h
  have hec : B.entity_collision = true := by
    rw [hB, (dashDecayPhase_pres (midPhases tm p)).2.2.2.2.2.2.2.1]
    exact midPhases_entity_collision tm p hflag
  have hws : B.wall_slide = false := by
    rw [hB, (dashDecayPhase_pres (midPhases tm p)).2.2.2.2.2.2.2.2.2.2.1]
    exact (midPhases_pres tm p).2.2.2.2.2.2.1
  obtain ⟨haw, hav, _, _⟩ := animPhase_pres_of_entity_collision A B hec
  constructor
  · rw [hru]
    exact hpost.2.2.2.2.2.2.2.2.2.2 (by rw [haw]; exact hws)
  · rw [hru, hpost.2.2.2.1, hav]

/-- A world with one solid wall tile at grid cell (1,0). -/
def wallTilemap : Tilemap :=
  ⟨16, fun cell => if cell = (1, 0) then some ⟨"stone", 1, (1, 0)⟩ else none⟩

/-- C7 counterexample input: an airborne clawless player with spent jump and
dash charges, one step left of the wall tile. -/
def c7State : PState :=
  { Player.init (8, 1) (8, 14) with
    jumps := 0
    dashes := 0
    air_time := 20
    wall_jump_timer := 100
    dash_cooldown_timer := 100
    wall_slide_timer := 100 }

set_option maxRecDepth 4000 in
/-- C7 counterexample: a frame of wall contact (the resolved collisions
report a right-wall block) does not reset the spent `jumps`/`dashes`
counters — the claim's "any single frame with … wall contact resets jumps
to its maximum of 1 and dashes to its maximum of 1" fails. -/
theorem C7_cex :
    c7State.jumps = 0 ∧ c7State.dashes = 0 ∧
    (Player.update wallTilemap (1, 0) c7State).collisions.right = true ∧
    (Player.update wallTilemap (1, 0) c7State).jumps = 0 ∧
    (Player.update wallTilemap (1, 0) c7State).dashes = 0 := by
  refine ⟨rfl, rfl, ?_, ?_, ?_⟩ <;> with_unfolding_all rfl

/-- C7 witness input: a player one frame into a wall slide. -/
def slideState : PState := { Player.init (0, 0) (8, 14) with sliding_time := 1 }

/-- Witness for C7: the amended wall-grab replenishment applied at a
concrete sliding state. -/
theorem C7_witness :
    (Player.update emptyTilemap (0, 0) slideState).jumps = NUM_AIR_JUMPS ∧
    (Player.update emptyTilemap (0, 0) slideState).dashes = NUM_AIR_DASHES :=
  (C7_amended emptyTilemap (0, 0) slideState).2
    (by rw [show slideState.sliding_time = 1 from rfl]; norm_num)

/-- C10 witness input: the entity-collision channel reports a block from the
left side of a solid interactable. -/
def c10State : PState := { Player.init (0, 0) (8, 14) with entity_x_colliding := 0 }

/-- Witness for C10 at a concrete entity-blocked state. -/
theorem C10_witness :
    (Player.update emptyTilemap (0, 0) c10State).wall_slide = false ∧
    (Player.update emptyTilemap (0, 0) c10State).velocity =
      (playerUpdatePre emptyTilemap (0, 0) c10State).2.velocity :=
  C10_entity_block_no_wall_slide emptyTilemap (0, 0) c10State (Or.inl rfl)

/-! ## C4: hitstun suppresses the integrator -/

/-- With movement silenced the animation hierarchy is skipped entirely (only
the per-frame looking-flag reset runs). -/
theorem animPhase_of_not_can_move (m : ℚ × ℚ) (s : PState) (h : s.can_move = false) :
    animPhase m s = (false, {s with looking_down := false, looking_up := false}) := by
  simp only [animPhase]
  rw [if_pos (by exact h)]

/-- C4 counterexample / witness input: a hitstunned player with downward
velocity. -/
def c4State : PState :=
  { Player.init (0, 0) (8, 14) with
    can_move := false
    velocity := (0, 3) }

set_option maxRecDepth 4000 in
/-- C4 counterexample: with `can_move = false` (hitstun) and a nonzero
vertical velocity, the per-frame player update leaves the position
unchanged, while one shared-integrator step on the same state would move
it — the integrator does not still run during hitstun. -/
theorem C4_cex :
    c4State.can_move = false ∧
    c4State.velocity.2 = 3 ∧
    (Player.update emptyTilemap (0, 0) c4State).pos = c4State.pos ∧
    (PhysicsEntity.update emptyTilemap (0, 0) (playerEntity c4State)).pos.2 ≠ c4State.pos.2 := by
  refine ⟨rfl, rfl, by with_unfolding_all rfl, ?_⟩
  have h1 : (PhysicsEntity.update emptyTilemap (0, 0) (playerEntity c4State)).pos.2 = 3 := by
    with_unfolding_all rfl
  rw [h1, show c4State.pos.2 = 0 from rfl]
  norm_num

/-- C4 amended: while movement is silenced (`canMove` false, the hitstun
window), the frame loop calls the player update with zero movement, but the
update skips the kinematic integrator entirely: position, horizontal
velocity (and, outside the dash window, vertical velocity) and the action
are unchanged; normal state evaluation is suppressed as well. -/
theorem C4_amended (tm : Tilemap) (pm : Bool × Bool) (s : PState)
    (hu : s.can_update = true) (hm : s.can_move = false) :
    gamePlayerFrame tm pm s = Player.update tm (0, 0) s ∧
    (Player.update tm (0, 0) s).pos = s.pos ∧
    (Player.update tm (0, 0) s).velocity.1 = s.velocity.1 ∧
    (s.dash_timer = 0 → (Player.update tm (0, 0) s).velocity.2 = s.velocity.2) ∧
    (Player.update tm (0, 0) s).action = s.action := by
  set A : ℚ × ℚ := (playerUpdatePre tm (0, 0) s).1 with hA
  set B : PState := (playerUpdatePre tm (0, 0) s).2 with hB0
  have hpost := playerUpdatePost_pres A B
  have hru : Player.update tm (0, 0) s = playerUpdatePost A B := rfl
  set m1 : ℚ × ℚ := shapeMovement s (0, 0) with hm1
  set s2 : PState := (dashGravityPhase s m1).2 with hs2
  have hcm2 : s2.can_move = false := by
    rw [hs2, (dashGravityPhase_pres s m1).2.2.1]
    exact hm
  have hphys : physicsPhase tm (dashGravityPhase s m1).1 s2 = s2 :=
    physicsPhase_of_not_can_move tm _ s2 hcm2
  have hB : B = dashDecayPhase (midPhases tm s2) := by
    refine hB0.trans ((congrArg Prod.snd (playerUpdatePre_eq tm (0, 0) s)).trans ?_)
    show dashDecayPhase (midPhases tm (physicsPhase tm (dashGravityPhase s m1).1 s2)) = _
    rw [hphys]
  have hBpos : B.pos = s.pos := by
    rw [hB, (dashDecayPhase_pres _).1, (midPhases_pres tm s2).2.2.2.1, hs2,
      (dashGravityPhase_pres s m1).1]
  have hBvel : B.velocity = s2.velocity := by
    rw [hB, (dashDecayPhase_pres _).2.2.1, (midPhases_pres tm s2).2.1]
  have hBact : B.action = s.action := by
    rw [hB, (dashDecayPhase_pres _).2.2.2.2.2.2.2.2.2.1,
      (midPhases_pres tm s2).2.2.2.2.2.2.2.2.2, hs2, (dashGravityPhase_pres s m1).2.2.2.2.2.2.2.2.2]
  have hBcm : B.can_move = false := by
    rw [hB, (dashDecayPhase_pres _).2.1, (midPhases_pres tm s2).2.2.1]
    exact hcm2
  have hanim : animPhase A B = (false, {B with looking_down := false, looking_up := false}) :=
    animPhase_of_not_can_move A B hBcm
  refine ⟨?_, ?_, ?_, ?_, ?_⟩
  · unfold gamePlayerFrame
    rw [if_neg (by rw [hm]; simp), if_pos ⟨hu, hm⟩]
  · rw [hru, hpost.2.2.2.2.1, congrArg (fun x => x.2.pos) hanim]
    exact hBpos
  · rw [hru, congrArg (fun v => v.1) hpost.2.2.2.1, congrArg (fun x => x.2.velocity.1) hanim]
    show B.velocity.1 = s.velocity.1
    rw [hBvel, hs2, (dashGravityPhase_pres s m1).2.2.2.1]
  · intro hdash
    rw [hru, congrArg (fun v => v.2) hpost.2.2.2.1, congrArg (fun x => x.2.velocity.2) hanim]
    show B.velocity.2 = s.velocity.2
    rw [hBvel, hs2, congrArg (fun v => v.2) (dashGravity_velocity_of_no_dash s m1 hdash).1]
  · rw [hru, hpost.2.2.2.2.2.2.2.2.1, congrArg (fun x => x.2.action) hanim]
    exact hBact

/-- Witness for C4: the amended hitstun behavior at the concrete
hitstunned state. -/
theorem C4_witness :
    gamePlayerFrame emptyTilemap (false, false) c4State =
      Player.update emptyTilemap (0, 0) c4State ∧
    (Player.update emptyTilemap (0, 0) c4State).pos = c4State.pos ∧
    (Player.update emptyTilemap (0, 0) c4State).velocity.1 = c4State.velocity.1 ∧
    (c4State.dash_timer = 0 →
      (Player.update emptyTilemap (0, 0) c4State).velocity.2 = c4State.velocity.2) ∧
    (Player.update emptyTilemap (0, 0) c4State).action = c4State.action :=
  C4_amended emptyTilemap (false, false) c4State rfl rfl

/-! ## C5: jump() returns true without a jump for a wingless airborne player -/

/-- C5 failing input: an airborne player (air_time 9, beyond twice the
coyote buffer) with a jump charge, no wings, not wall sliding, not
dashing. -/
def c5State : PState :=
  { Player.init (0, 0) (8, 14) with
    air_time := 9
    wall_slide_timer := 100 }

set_option maxRecDepth 4000 in
/-- C5: at the failing input, `jump()` returns `True` while performing no
jump — the velocity is unchanged (and no branch ran except the trailing
`air_time` reset), contradicting the method's own docstring ("Return TRUE
if player has successfully jumped") and the spec. -/
theorem C5_bug :
    c5State.jumps = NUM_AIR_JUMPS ∧
    c5State.has_wings = false ∧
    c5State.air_time > AIRTIME_BUFFER * 2 ∧
    c5State.dash_timer = 0 ∧
    (Player.jump c5State).1 = true ∧
    (Player.jump c5State).2.velocity = c5State.velocity ∧
    (Player.jump c5State).2.air_time = AIRTIME_BUFFER + 1 := by
  refine ⟨rfl, rfl, by decide, rfl, ?_, ?_, ?_⟩ <;> with_unfolding_all rfl

/-! ## C1: hazard damage is requested without any tangibility guard -/

/-- `collect_anim` changes only the action and a sound timer: identity
fields are preserved. -/
theorem collect_anim_pres (pv : PlayerView) (c : Collectable) :
    (c.collect_anim pv).type = c.type ∧ (c.collect_anim pv).pos = c.pos ∧
    (c.collect_anim pv).size = c.size ∧ (c.collect_anim pv).x_collisions = c.x_collisions ∧
    (c.collect_anim pv).collect_timer = c.collect_timer := by
  simp only [Collectable.collect_anim]
  repeat' split
  all_goals exact ⟨rfl, rfl, rfl, rfl, rfl⟩

/-- `collect_finish` changes only the collect timer of the returned
collectable: identity fields are preserved. -/
theorem collect_finish_pres (pv : PlayerView) (c : Collectable) :
    (c.collect_finish pv).self.type = c.type ∧ (c.collect_finish pv).self.pos = c.pos ∧
    (c.collect_finish pv).self.size = c.size ∧
    (c.collect_finish pv).self.x_collisions = c.x_collisions := by
  simp only [Collectable.collect_finish]
  split
  · exact ⟨rfl, rfl, rfl, rfl⟩
  · split <;> exact ⟨rfl, rfl, rfl, rfl⟩

/-- `Collectable.collect` never changes the collectable's identity fields. -/
theorem collect_pres (c : Collectable) (pv : PlayerView) :
    (c.collect pv).self.type = c.type ∧ (c.collect pv).self.pos = c.pos ∧
    (c.collect pv).self.size = c.size ∧ (c.collect pv).self.x_collisions = c.x_collisions := by
  simp only [Collectable.collect]
  refine ⟨?_, ?_, ?_, ?_⟩
  · rw [(collect_finish_pres _ _).1, (collect_anim_pres _ _).1]
  · rw [(collect_finish_pres _ _).2.1, (collect_anim_pres _ _).2.1]
  · rw [(collect_finish_pres _ _).2.2.1, (collect_anim_pres _ _).2.2.1]
  · rw [(collect_finish_pres _ _).2.2.2, (collect_anim_pres _ _).2.2.2.1]

/-- `tick_timers` changes only timers: identity fields are preserved. -/
theorem tick_timers_pres (c : Collectable) :
    c.tick_timers.type = c.type ∧ c.tick_timers.pos = c.pos ∧
    c.tick_timers.size = c.size ∧ c.tick_timers.x_collisions = c.x_collisions := by
  simp only [Collectable.tick_timers]
  split <;> exact ⟨rfl, rfl, rfl, rfl⟩

/-- `tick_timers` leaves the hitbox unchanged. -/
theorem tick_timers_rect (c : Collectable) : c.tick_timers.rect = c.rect := by
  unfold Collectable.rect
  rw [(tick_timers_pres c).2.1, (tick_timers_pres c).2.2.1]

/-- `contact` preserves the collectable's type. -/
theorem contact_type (pv : PlayerView) (c : Collectable) :
    (c.contact pv).self.type = c.type := by
  unfold Collectable.contact
  split
  · exact (collect_pres c pv).1
  · rfl

/-- The saw check fires for any saw within the collision radius, regardless
of the player's state (which is not even an input of the check). -/
theorem sawCheck_true (dist_sq : Int) (dfo : Bool) (c : Collectable)
    (htype : c.type = "collectables/saw")
    (hdist : dist_sq < ((COLLECTABLE_SIZES "saw").1 - 10) ^ 2) :
    sawCheck dist_sq dfo c = true := by
  unfold sawCheck
  rw [if_pos ⟨by rw [htype]; rfl, hdist⟩]

/-- The frame result's damage flag is exactly the saw check on the
post-contact state. -/
theorem update_damage_eq (collectables : List Collectable) (pv : PlayerView)
    (dfo : Bool) (gc : Int) (rnd : Bool) (c : Collectable) :
    (Collectable.update collectables pv dfo gc rnd c).damage_fade_out =
      sawCheck ((c.tick_timers.rect.centerx - pv.rect.centerx) ^ 2 +
        (c.tick_timers.rect.centery - pv.rect.centery) ^ 2) dfo
        (c.tick_timers.contact pv).self := rfl

/-- The spikes check sets the damage request whenever the tile below is
spikes and the down flag is set — with no reference to any timer. -/
theorem spikesPhase_sets (tm : Tilemap) (x : PState)
    (hb : (Player.below_tile tm x).type = "spikes") (hd : x.collisions.down = true) :
    (spikesPhase tm x).damage_fade_out = true := by
  unfold spikesPhase
  rw [if_pos ⟨by simp [hb], hd⟩]

/-- `below_tile` depends only on the player's position and size. -/
theorem below_tile_congr (tm : Tilemap) (x y : PState) (hp : x.pos = y.pos)
    (hs : x.size = y.size) : Player.below_tile tm x = Player.below_tile tm y := by
  unfold Player.below_tile playerRect
  rw [hp, hs]

/-- C1 amended: hazard contact requests the damage/fade-out sequence
unconditionally on qualifying overlap.  The saw's distance-based check sets
the request for any player view — the player's `intangibility_timer` is not
even an input of the check, and the cloak window is not consulted — and the
spikes check sets it whenever the tile below is spikes and the down flag is
set, again without consulting any tangibility state. -/
theorem C1_amended :
    (∀ (collectables : List Collectable) (pv : PlayerView) (dfo : Bool) (gc : Int)
      (rnd : Bool) (c : Collectable),
      c.type = "collectables/saw" →
      (c.rect.centerx - pv.rect.centerx) ^ 2 + (c.rect.centery - pv.rect.centery) ^ 2 <
        ((COLLECTABLE_SIZES "saw").1 - 10) ^ 2 →
      (Collectable.update collectables pv dfo gc rnd c).damage_fade_out = true) ∧
    (∀ (tm : Tilemap) (movement : ℚ × ℚ) (s : PState),
      (Player.below_tile tm (Player.update tm movement s)).type = "spikes" →
      (Player.update tm movement s).collisions.down = true →
      (Player.update tm movement s).damage_fade_out = true) := by
  constructor
  · intro collectables pv dfo gc rnd c htype hdist
    rw [update_damage_eq]
    apply sawCheck_true
    · rw [contact_type, (tick_timers_pres c).1]
      exact htype
    · rw [tick_timers_rect]
      exact hdist
  · intro tm movement s hb hd
    set A : ℚ × ℚ := (playerUpdatePre tm movement s).1 with hA
    set B : PState := (playerUpdatePre tm movement s).2 with hB0
    have hpost := playerUpdatePost_pres A B
    have hanim := animPhase_jumps A B
    have hru : Player.update tm movement s = playerUpdatePost A B := rfl
    set p : PState := physicsPhase tm (dashGravityPhase s (shapeMovement s movement)).1
      (dashGravityPhase s (shapeMovement s movement)).2 with hp
    have hB : B = dashDecayPhase (midPhases tm p) :=
      hB0.trans (congrArg Prod.snd (playerUpdatePre_eq tm movement s))
    set c_in : PState := depthsPhase (entityCollisionPhase p) with hcin
    -- the final state's pos, size and down flag coincide with those at the
    -- spikes check
    have hrpos : (Player.update tm movement s).pos = c_in.pos := by
      rw [hru, hpost.2.2.2.2.1, hanim.2.2.2.1, hB, (dashDecayPhase_pres _).1,
        (midPhases_pres tm p).2.2.2.1, hcin, (depthsPhase_pres _).1, (entityCollisionPhase_pres p).1]
    have hrsize : (Player.update tm movement s).size = c_in.size := by
      rw [hru, hpost.2.2.2.2.2.2.2.2.2.1, hanim.2.2.2.2.2.2, hB,
        (dashDecayPhase_pres _).2.2.2.2.2.2.2.2.2.2.2.2.2, (midPhases_pres tm p).2.2.2.2.2.2.2.2.1,
        hcin, (depthsPhase_pres _).2.2.2.2.2.2.2.2.2.2.2.2.2, (entityCollisionPhase_pres p).2.2.2.2.2.2.2.2.2.2.2.2.2]
    have hrdown : c_in.collisions.down = true := by
      rw [hcin, congrArg Collisions.down (depthsPhase_pres (entityCollisionPhase p)).2.2.2.2.2.2.2.1,
        (entityCollisionPhase_pres p).2.2.2.2.2.2.2.1]
      rw [hru, hpost.2.2.2.2.2.1, hanim.2.2.1, hB,
        congrArg Collisions.down (dashDecayPhase_pres (midPhases tm p)).2.2.2.2.2.2.1,
        (midPhases_pres tm p).2.2.2.2.1] at hd
      exact hd
    have hbt : (Player.below_tile tm c_in).type = "spikes" := by
      rw [below_tile_congr tm c_in (Player.update tm movement s) hrpos.symm hrsize.symm]
      exact hb
    have hset : (spikesPhase tm c_in).damage_fade_out = true := spikesPhase_sets tm c_in hbt hrdown
    rw [hru, hpost.2.2.2.2.2.2.1, hanim.2.2.2.2.2.1, hB,
      (dashDecayPhase_pres (midPhases tm p)).2.2.2.2.2.2.2.2.1]
    show (wallResetPhase (groundResetPhase (timersPhase (spikesPhase tm c_in)))).damage_fade_out = true
    rw [(wallResetPhase_pres _).2.2.2.2.2.2.2.1, (groundResetPhase_pres _).2.2.2.2.2.2.2.1,
      (timersPhase_pres _).2.2.2.2.2.2.2.2.2.1]
    exact hset

/-- C1 counterexample inputs: a saw overlapping a cloak-dashing player
(cloak window tick 5 of 14), and spikes under a player whose
`intangibility_timer` was just set to 60 by the respawn fade. -/
def sawCex : Collectable := Collectable.init "saw" (0, 0) false

def pvCex : PlayerView :=
  { rect := ⟨0, 0, 8, 14⟩
    pos_x := 0
    pos_y := 0
    cloak_timer := 5
    has_cloak := true
    has_dash := true
    has_claw := false
    has_wings := false
    entity_x_colliding := -1
    collisions_right := false
    collisions_left := false
    spawn_pos := (0, 0) }

def spikeTilemap : Tilemap :=
  ⟨16, fun cell => if cell = (0, 1) then some ⟨"spikes", 0, (0, 1)⟩ else none⟩

def intangibleState : PState :=
  { Player.init (4, 2) (8, 14) with
    intangibility_timer := 60
    velocity := (0, 1)
    air_time := 20
    wall_jump_timer := 100 }

set_option maxRecDepth 4000 in
set_option maxHeartbeats 1600000 in
/-- C1 counterexample: a qualifying saw overlap sets the damage-fade-out
request although the player is mid cloak-dash, and a spikes contact sets it
although the player's `intangibility_timer` is 60 (not expired) — the claim
that such an overlap never sets the request while intangible or
cloak-dashing is false. -/
theorem C1_cex :
    pvCex.cloak_timer = 5 ∧ pvCex.has_cloak = true ∧
    (Collectable.update [] pvCex false 0 false sawCex).damage_fade_out = true ∧
    intangibleState.intangibility_timer = 60 ∧
    (Player.update spikeTilemap (0, 0) intangibleState).collisions.down = true ∧
    (Player.update spikeTilemap (0, 0) intangibleState).damage_fade_out = true := by
  refine ⟨rfl, rfl, ?_, rfl, ?_, ?_⟩ <;> with_unfolding_all rfl

set_option maxRecDepth 4000 in
/-- Witness for C1: both halves of the amended claim applied at the
concrete counterexample inputs. -/
theorem C1_witness :
    (Collectable.update [] pvCex false 0 false sawCex).damage_fade_out = true ∧
    (Player.update spikeTilemap (0, 0) intangibleState).damage_fade_out = true :=
  ⟨C1_amended.1 [] pvCex false 0 false sawCex rfl (by with_unfolding_all decide),
    C1_amended.2 spikeTilemap (0, 0) intangibleState (by with_unfolding_all rfl)
      (by with_unfolding_all rfl)⟩

/-! ## C2: lookups against not-yet-populated locations -/

/-- C2 failing input: a lever one tick before its gate-open checkpoint
(`collect_timer` 59, ticked to 60 inside `update`). -/
def leverCex : Collectable :=
  { Collectable.init "lever" (100, 100) false with collect_timer := 59 }

/-- A player view far away from `leverCex` (no contact this frame). -/
def pvFarC2 : PlayerView :=
  { rect := ⟨0, 0, 8, 14⟩
    pos_x := 0
    pos_y := 0
    cloak_timer := 0
    has_cloak := false
    has_dash := true
    has_claw := false
    has_wings := false
    entity_x_colliding := -1
    collisions_right := false
    collisions_left := false
    spawn_pos := (0, 0) }

set_option maxRecDepth 4000 in
set_option maxHeartbeats 1600000 in
/-- C2 counterexample: at the gate-open checkpoint tick with no gate
entities in the active list, the lever's nearest-gate search does not yield
an absent result — it fails with an uncaught `IndexError` (`gate_list[0]`
on an empty list). -/
theorem C2_cex :
    leverCex.type = "collectables/lever" ∧
    leverCex.collect_timer = 59 ∧
    (Collectable.update [] pvFarC2 false 0 false leverCex).gate_open =
      some (Except.error "IndexError: list index out of range") := by
  refine ⟨rfl, rfl, ?_⟩
  with_unfolding_all rfl

/-- C2 amended: tile-below at a cell absent from the tile map does return an
explicit `None`; but the lever's nearest-gate search returns an absent
result only in the sense of raising `IndexError` when the filtered gate
list is empty — it fails instead of returning `None`; with at least one
gate present it returns a gate. -/
theorem C2_amended :
    (∀ (tm : Tilemap) (pos : ℚ × ℚ),
      tm.tilemap (Int.floor (pos.1 / (tm.tile_size : ℚ)),
        Int.floor (pos.2 / (tm.tile_size : ℚ)) + 1) = none →
      tm.tile_below pos = none) ∧
    (∀ (rect : Rect) (collectables : List Collectable),
      collectables.filter (fun entity => entity.type == "collectables/gate") = [] →
      leverFindGate rect collectables =
        Except.error "IndexError: list index out of range") ∧
    (∀ (rect : Rect) (collectables : List Collectable),
      collectables.filter (fun entity => entity.type == "collectables/gate") ≠ [] →
      ∃ g, leverFindGate rect collectables = Except.ok g) := by
  refine ⟨?_, ?_, ?_⟩
  · intro tm pos h
    unfold Tilemap.tile_below
    exact h
  · intro rect collectables h
    simp only [leverFindGate]
    rw [h]
  · intro rect collectables h
    cases hfil : collectables.filter (fun entity => entity.type == "collectables/gate") with
    | nil => exact absurd hfil h
    | cons g gs => exact ⟨_, by simp only [leverFindGate]; rw [hfil]⟩

/-- A concrete gate entity for the C2 witness. -/
def gateC2 : Collectable :=
  { type := "collectables/gate"
    pos := (32, 0)
    size := (16, 16)
    x_collisions := true
    collect_timer := 0
    idle_noise_timer := 0
    alert_noise_timer := 0
    shade_noise_timer := 0
    alerted := false
    action := "idle" }

/-- Witness for C2: the amended behavior at concrete inputs — an absent
cell, an empty active list, and a one-gate active list. -/
theorem C2_witness :
    emptyTilemap.tile_below (0, 0) = none ∧
    leverFindGate ⟨0, 0, 16, 16⟩ [] =
      Except.error "IndexError: list index out of range" ∧
    ∃ g, leverFindGate ⟨0, 0, 16, 16⟩ [gateC2] = Except.ok g :=
  ⟨C2_amended.1 emptyTilemap (0, 0) rfl,
   C2_amended.2.1 ⟨0, 0, 16, 16⟩ [] rfl,
   C2_amended.2.2 ⟨0, 0, 16, 16⟩ [gateC2] (by with_unfolding_all decide)⟩

/-! ## C8: the grub counter increments exactly once -/

/-- The top-of-frame collect-timer tick (`collect_timer += 1` once
`collect()` has been called). -/
def tickTimer (t : Int) : Int := if t > 0 then t + 1 else t

/-- The grub's collect-timer evolution over one frame: the tick followed by
the contact start (`collect()` sets the timer to 1 on first overlap). -/
def nextTimer (overlap : Bool) (t : Int) : Int :=
  if overlap then (if tickTimer t < 1 then 1 else tickTimer t) else tickTimer t

/-- A run of `Collectable.update` frames for one collectable: each list
entry is the frame's player view and the frame's random-oracle draw.  The
result is the final collectable state and final global grub counter. -/
def grubRun (c : Collectable) (gc : Int) : List (PlayerView × Bool) → Collectable × Int
  | [] => (c, gc)
  | f :: rest =>
    grubRun (Collectable.update [] f.1 false gc f.2 c).self
      (Collectable.update [] f.1 false gc f.2 c).grubs_collected rest

/-- `tick_timers` applies exactly the `tickTimer` step to the collect
timer. -/
theorem tick_timers_timer (c : Collectable) :
    c.tick_timers.collect_timer = tickTimer c.collect_timer := by
  simp only [Collectable.tick_timers, tickTimer]
  split <;> rfl

/-- `collect_finish` on a non-pickup collectable starts the collect timer
on first contact. -/
theorem collect_finish_timer (pv : PlayerView) (c : Collectable)
    (h : c.type.endsWith "pickup" = false) :
    (c.collect_finish pv).self.collect_timer =
      if c.collect_timer < 1 then 1 else c.collect_timer := by
  simp only [Collectable.collect_finish]
  rw [h, if_neg Bool.false_ne_true]
  split <;> rfl

/-- `collect` on a non-pickup collectable starts the collect timer on first
contact. -/
theorem collect_timer_eq (pv : PlayerView) (c : Collectable)
    (h : c.type.endsWith "pickup" = false) :
    (c.collect pv).self.collect_timer =
      if c.collect_timer < 1 then 1 else c.collect_timer := by
  simp only [Collectable.collect]
  refine (collect_finish_timer _ _ ?_).trans ?_
  · rw [(collect_anim_pres _ c).1]
    exact h
  · rw [(collect_anim_pres _ c).2.2.2.2]

/-- `contact` on an overlapping frame is `collect`. -/
theorem contact_hit (pv : PlayerView) (c : Collectable)
    (hov : c.rect.colliderect pv.rect = true) : c.contact pv = c.collect pv := by
  unfold Collectable.contact
  rw [hov, if_pos rfl]

/-- `contact` without overlap changes nothing. -/
theorem contact_miss (pv : PlayerView) (c : Collectable)
    (hov : c.rect.colliderect pv.rect = false) : c.contact pv = ⟨c, pv, false⟩ := by
  unfold Collectable.contact
  rw [hov, if_neg Bool.false_ne_true]

/-- `contact` preserves the collectable's identity fields. -/
theorem contact_pres (pv : PlayerView) (c : Collectable) :
    (c.contact pv).self.type = c.type ∧ (c.contact pv).self.pos = c.pos ∧
    (c.contact pv).self.size = c.size := by
  unfold Collectable.contact
  split
  · exact ⟨(collect_pres c pv).1, (collect_pres c pv).2.1, (collect_pres c pv).2.2.1⟩
  · exact ⟨rfl, rfl, rfl⟩

/-- `alertedReset` changes only the alerted flag. -/
theorem alertedReset_pres (d : Int) (c : Collectable) :
    (alertedReset d c).type = c.type ∧ (alertedReset d c).pos = c.pos ∧
    (alertedReset d c).size = c.size ∧ (alertedReset d c).collect_timer = c.collect_timer := by
  unfold alertedReset
  split <;> exact ⟨rfl, rfl, rfl, rfl⟩

/-- `shadeGateCollision` changes only the collision flag. -/
theorem shadeGateCollision_pres (pv : PlayerView) (c : Collectable) :
    (shadeGateCollision pv c).type = c.type ∧ (shadeGateCollision pv c).pos = c.pos ∧
    (shadeGateCollision pv c).size = c.size ∧
    (shadeGateCollision pv c).collect_timer = c.collect_timer := by
  unfold shadeGateCollision
  repeat' split
  all_goals exact ⟨rfl, rfl, rfl, rfl⟩

/-- `grubBehavior` changes only the action, alerted flag and noise timers. -/
theorem grubBehavior_pres (d y : Int) (pv : PlayerView) (rnd : Bool) (c : Collectable) :
    (grubBehavior d y pv rnd c).type = c.type ∧ (grubBehavior d y pv rnd c).pos = c.pos ∧
    (grubBehavior d y pv rnd c).size = c.size ∧
    (grubBehavior d y pv rnd c).collect_timer = c.collect_timer := by
  simp only [grubBehavior]
  repeat' split
  all_goals exact ⟨rfl, rfl, rfl, rfl⟩

/-- The frame result's collectable is the grub-behavior phase applied to
the post-contact state. -/
theorem update_self_eq (collectables : List Collectable) (pv : PlayerView)
    (dfo : Bool) (gc : Int) (rnd : Bool) (c : Collectable) :
    (Collectable.update collectables pv dfo gc rnd c).self =
      grubBehavior
        ((c.tick_timers.rect.centerx - pv.rect.centerx) ^ 2 +
          (c.tick_timers.rect.centery - pv.rect.centery) ^ 2)
        (c.tick_timers.rect.centery - pv.rect.centery)
        (c.tick_timers.contact pv).player rnd
        (shadeGateCollision (c.tick_timers.contact pv).player
          (alertedReset
            ((c.tick_timers.rect.centerx - pv.rect.centerx) ^ 2 +
              (c.tick_timers.rect.centery - pv.rect.centery) ^ 2)
            (c.tick_timers.contact pv).self)) := rfl

/-- The frame result's counter is the grub collect-check applied to the
final collectable state. -/
theorem update_gc_eq (collectables : List Collectable) (pv : PlayerView)
    (dfo : Bool) (gc : Int) (rnd : Bool) (c : Collectable) :
    (Collectable.update collectables pv dfo gc rnd c).grubs_collected =
      grubCollectCheck gc
        (grubBehavior
          ((c.tick_timers.rect.centerx - pv.rect.centerx) ^ 2 +
            (c.tick_timers.rect.centery - pv.rect.centery) ^ 2)
          (c.tick_timers.rect.centery - pv.rect.centery)
          (c.tick_timers.contact pv).player rnd
          (shadeGateCollision (c.tick_timers.contact pv).player
            (alertedReset
              ((c.tick_timers.rect.centerx - pv.rect.centerx) ^ 2 +
                (c.tick_timers.rect.centery - pv.rect.centery) ^ 2)
              (c.tick_timers.contact pv).self))) := rfl

/-- One `update` frame preserves the collectable's identity fields. -/
theorem update_pres (collectables : List Collectable) (pv : PlayerView)
    (dfo : Bool) (gc : Int) (rnd : Bool) (c : Collectable) :
    (Collectable.update collectables pv dfo gc rnd c).self.type = c.type ∧
    (Collectable.update collectables pv dfo gc rnd c).self.pos = c.pos ∧
    (Collectable.update collectables pv dfo gc rnd c).self.size = c.size := by
  rw [update_self_eq]
  refine ⟨?_, ?_, ?_⟩
  · rw [(grubBehavior_pres _ _ _ _ _).1, (shadeGateCollision_pres _ _).1,
      (alertedReset_pres _ _).1, (contact_pres _ _).1, (tick_timers_pres c).1]
  · rw [(grubBehavior_pres _ _ _ _ _).2.1, (shadeGateCollision_pres _ _).2.1,
      (alertedReset_pres _ _).2.1, (contact_pres _ _).2.1, (tick_timers_pres c).2.1]
  · rw [(grubBehavior_pres _ _ _ _ _).2.2.1, (shadeGateCollision_pres _ _).2.2.1,
      (alertedReset_pres _ _).2.2.1, (contact_pres _ _).2.2, (tick_timers_pres c).2.2.1]

/-- One `update` frame preserves the collectable's hitbox. -/
theorem update_rect (collectables : List Collectable) (pv : PlayerView)
    (dfo : Bool) (gc : Int) (rnd : Bool) (c : Collectable) :
    (Collectable.update collectables pv dfo gc rnd c).self.rect = c.rect := by
  unfold Collectable.rect
  rw [(update_pres collectables pv dfo gc rnd c).2.1,
    (update_pres collectables pv dfo gc rnd c).2.2]

/-- One frame of a grub: the collect timer follows `nextTimer`, and the
counter increments exactly on the glass-break checkpoint (`nextTimer`
reaching 2). -/
theorem update_grub_step (collectables : List Collectable) (pv : PlayerView)
    (dfo : Bool) (gc : Int) (rnd : Bool) (c : Collectable)
    (htype : c.type = "collectables/grub") :
    (Collectable.update collectables pv dfo gc rnd c).self.collect_timer =
      nextTimer (c.rect.colliderect pv.rect) c.collect_timer ∧
    (Collectable.update collectables pv dfo gc rnd c).grubs_collected =
      (if nextTimer (c.rect.colliderect pv.rect) c.collect_timer == 2 then gc + 1
       else gc) := by
  have hpick : c.tick_timers.type.endsWith "pickup" = false := by
    rw [(tick_timers_pres c).1, htype]
    with_unfolding_all rfl
  have htimer : (c.tick_timers.contact pv).self.collect_timer =
      nextTimer (c.rect.colliderect pv.rect) c.collect_timer := by
    unfold nextTimer
    cases hov : c.rect.colliderect pv.rect with
    | true =>
      rw [contact_hit pv c.tick_timers (by rw [tick_timers_rect]; exact hov),
        collect_timer_eq pv c.tick_timers hpick, tick_timers_timer, if_pos rfl]
    | false =>
      rw [contact_miss pv c.tick_timers (by rw [tick_timers_rect]; exact hov),
        if_neg Bool.false_ne_true]
      exact tick_timers_timer c
  constructor
  · rw [update_self_eq, (grubBehavior_pres _ _ _ _ _).2.2.2,
      (shadeGateCollision_pres _ _).2.2.2, (alertedReset_pres _ _).2.2.2, htimer]
  · rw [update_gc_eq]
    unfold grubCollectCheck
    rw [(grubBehavior_pres _ _ _ _ _).1, (shadeGateCollision_pres _ _).1,
      (alertedReset_pres _ _).1, (contact_pres _ _).1, (tick_timers_pres c).1, htype,
      (grubBehavior_pres _ _ _ _ _).2.2.2, (shadeGateCollision_pres _ _).2.2.2,
      (alertedReset_pres _ _).2.2.2, htimer]
    simp

/-- Once the collect timer is running, it counts straight up. -/
theorem nextTimer_pos (ov : Bool) (t : Int) (h : 1 ≤ t) : nextTimer ov t = t + 1 := by
  have htick : tickTimer t = t + 1 := by
    unfold tickTimer
    rw [if_pos (by omega : t > 0)]
  unfold nextTimer
  rw [htick]
  cases ov with
  | false => rw [if_neg Bool.false_ne_true]
  | true => rw [if_pos rfl, if_neg (by omega : ¬t + 1 < 1)]

/-- Once a grub has passed the checkpoint (`collect_timer ≥ 2`), the
counter never changes again, through despawn. -/
theorem grubRun_ge2 (pvs : List (PlayerView × Bool)) : ∀ (c : Collectable) (gc : Int),
    c.type = "collectables/grub" → 2 ≤ c.collect_timer →
    (grubRun c gc pvs).2 = gc := by
  induction pvs with
  | nil => exact fun c gc _ _ => rfl
  | cons f rest ih =>
    intro c gc htype ht
    have hstep := update_grub_step [] f.1 false gc f.2 c htype
    have hnt : nextTimer (c.rect.colliderect f.1.rect) c.collect_timer =
        c.collect_timer + 1 := nextTimer_pos _ _ (by omega)
    simp only [grubRun]
    rw [ih _ _ ((update_pres [] f.1 false gc f.2 c).1.trans htype)
      (by rw [hstep.1, hnt]; omega)]
    rw [hstep.2, hnt, if_neg (by simp only [beq_iff_eq]; omega)]

/-- A grub whose collect timer was started last frame increments the
counter exactly once, on the very next frame. -/
theorem grubRun_started (pvs : List (PlayerView × Bool)) : ∀ (c : Collectable) (gc : Int),
    c.type = "collectables/grub" → c.collect_timer = 1 →
    (grubRun c gc pvs).2 = gc + (if pvs = [] then 0 else 1) := by
  cases pvs with
  | nil =>
    intro c gc _ _
    simp [grubRun]
  | cons f rest =>
    intro c gc htype ht
    have hstep := update_grub_step [] f.1 false gc f.2 c htype
    have hnt : nextTimer (c.rect.colliderect f.1.rect) c.collect_timer = 2 := by
      rw [ht, nextTimer_pos _ 1 (by omega)]
      decide
    simp only [grubRun]
    rw [grubRun_ge2 rest _ _ ((update_pres [] f.1 false gc f.2 c).1.trans htype)
      (by rw [hstep.1, hnt])]
    rw [hstep.2, hnt, if_pos (by decide)]
    simp

/-- A fresh grub's counter increments by exactly 1 over a run iff some
overlapping frame occurs before the run's last frame (the increment lands
one frame after first contact). -/
theorem grubRun_fresh (pvs : List (PlayerView × Bool)) : ∀ (c : Collectable) (gc : Int),
    c.type = "collectables/grub" → c.collect_timer = 0 →
    (grubRun c gc pvs).2 =
      gc + (if pvs.dropLast.any (fun f => c.rect.colliderect f.1.rect) then 1 else 0) := by
  induction pvs with
  | nil =>
    intro c gc _ _
    simp [grubRun]
  | cons f rest ih =>
    intro c gc htype ht
    have hstep := update_grub_step [] f.1 false gc f.2 c htype
    have htype' := (update_pres [] f.1 false gc f.2 c).1.trans htype
    have hrect := update_rect [] f.1 false gc f.2 c
    simp only [grubRun]
    cases hov : c.rect.colliderect f.1.rect with
    | true =>
      have ht1 : (Collectable.update [] f.1 false gc f.2 c).self.collect_timer = 1 := by
        rw [hstep.1, hov, ht]
        rfl
      have hgc : (Collectable.update [] f.1 false gc f.2 c).grubs_collected = gc := by
        rw [hstep.2, hov, ht, if_neg (by decide)]
      rw [grubRun_started rest _ _ htype' ht1, hgc]
      cases rest with
      | nil => simp
      | cons r rs =>
        rw [show (f :: r :: rs).dropLast = f :: (r :: rs).dropLast from rfl]
        simp only [List.any_cons]
        simp only [hov]
        simp
    | false =>
      have ht0 : (Collectable.update [] f.1 false gc f.2 c).self.collect_timer = 0 := by
        rw [hstep.1, hov, ht]
        rfl
      have hgc : (Collectable.update [] f.1 false gc f.2 c).grubs_collected = gc := by
        rw [hstep.2, hov, ht, if_neg (by decide)]
      rw [ih _ _ htype' ht0, hgc, hrect]
      cases rest with
      | nil => simp
      | cons r rs =>
        rw [show (f :: r :: rs).dropLast = f :: (r :: rs).dropLast from rfl]
        simp only [List.any_cons]
        simp only [hov]
        rw [Bool.false_or]

/-- C8: over any run of frames, a freshly spawned grub increments the
global collected counter by exactly 1 in total if the player overlaps it
at any frame before the run's last (the counter is unchanged until the
glass-break checkpoint tick `collect_timer = 2`, reached exactly one frame
after first contact, and never incremented again through despawn), and by
0 if no such overlap occurs. -/
theorem C8_grub_single_trigger (pos : ℚ × ℚ) (gc : Int) (pvs : List (PlayerView × Bool)) :
    (grubRun (Collectable.init "grub" pos false) gc pvs).2 =
      gc + (if pvs.dropLast.any
        (fun f => (Collectable.init "grub" pos false).rect.colliderect f.1.rect)
        then 1 else 0) :=
  grubRun_fresh pvs (Collectable.init "grub" pos false) gc rfl rfl

end PalePlatformer
